import Mathlib

/-!
# Verification of the ps6000d SCPI bridge acquisition engine

A shallow embedding of the shared mutable acquisition state and the
command handlers of `src/ps6000d/PicoSCPIServer.cpp` (globals declared at
lines 150-201, handlers below), together with the fragments of `main.cpp`
that initialise that state.

Modelling conventions:
* C++ `double`/`float` arithmetic is modelled exactly over `ℚ`; every
  constant appearing in the modelled code paths (range ladder values,
  `32767`, threshold scale factors) is exactly representable, and the
  facts proved are robust to floating-point rounding.
* C++ `int64_t` division truncates toward zero; we use `Int.tdiv`, which
  has the same convention.  Division by zero is undefined behaviour in
  C++; the model records any division with zero divisor in a ghost flag
  `ubDivByZero` and otherwise continues with `Int.tdiv`'s value.
* Calls into the Pico driver are modelled as events prepended to a ghost
  `events` log; the driver is assumed to answer `PICO_OK` (the bridge's
  own failure handling is out of the modelled claims).
* `std::map<size_t, T>` value-initialises missing keys, so the maps are
  modelled as total functions with the C++ default as initial value.
-/

/-- The hardware families handled by the per-series switches
(`g_pico_type`).  The legacy non-A types never reach the modelled
handlers. -/
inductive PicoType where
  | pico2000a
  | pico3000a
  | pico4000a
  | pico5000a
  | pico6000a
  | picoPsospa
deriving DecidableEq

/-- `PICO_COUPLING` values used by the bridge. -/
inductive Coupling where
  | dc1M
  | ac1M
  | dc50
deriving DecidableEq

/-- Ghost log entries, one per modelled driver call. -/
inductive DevEvent where
  /-- `psXXXXStop` -/
  | stop
  /-- `psXXXXRunBlock pre post` — the device arm call issued by `StartInternal`. -/
  | runBlock (pre : ℕ) (post : ℕ)
  /-- `psXXXXSetSimpleTrigger channel threshold delay timeoutUs`. -/
  | simpleTrigger (channel : ℕ) (threshold : ℤ) (delay : ℕ) (timeoutUs : ℕ)
  /-- digital trigger configuration (`SetTriggerChannelConditions` +
  `SetTriggerDigitalPortProperties`); the API takes no timeout. -/
  | digitalTrigger (lane : ℕ)
  /-- `psXXXXSetChannel` / `SetChannelOn` / `SetChannelOff`. -/
  | setChannelHW (channel : ℕ) (enabled : Bool)
  /-- `psXXXXSetDigitalPort(On)` for one pod. -/
  | setPodHW (pod : ℕ)
deriving DecidableEq

/-- `PICO_TRIGGER_AUX` from the Pico SDK channel enumeration: the
auxiliary external trigger input's reserved channel id. -/
def PICO_TRIGGER_AUX : ℕ := 1001

/-- C's `round`: round half away from zero (`round(2.5) = 3`,
`round(-2.5) = -3`), as used on the trigger code by the 3000A/4000A/
6000A/PSOSPA branches of `UpdateTrigger`. -/
def croundQ (q : ℚ) : ℤ :=
  if q < 0 then -(Int.floor ((1 / 2 : ℚ) - q)) else Int.floor (q + 1 / 2)

/-- C's `trunc` (round toward zero), as used on the trigger code by the
2000A and 5000A branches of `UpdateTrigger`. -/
def ctruncQ (q : ℚ) : ℤ :=
  Int.tdiv q.num (q.den : ℤ)

/-- Lines 3395-3398 of `PicoSCPIServer.cpp` (`StartInternal`): the
pre/post-trigger sample split computed when arming.
`triggerDelaySamples = g_triggerDelay / g_sampleInterval` (C++ `int64_t`
division, truncating toward zero), `nPreTrigger` clamps it to
`[0, g_memDepth]`, and `nPostTrigger` is the remainder of the memory
depth. -/
def prePostSplit (delay interval : ℤ) (memDepth : ℕ) : ℕ × ℕ :=
  let triggerDelaySamples := Int.tdiv delay interval
  let nPreTrigger := (min (max triggerDelaySamples 0) (memDepth : ℤ)).toNat
  (nPreTrigger, memDepth - nPreTrigger)

section RangeLadder

/-- The descending-threshold range selection shared by every series
branch of `SetAnalogRange`: try each supported range value from the
largest down; the first one strictly exceeded by the request is
selected, and the smallest range is the fallback. -/
def ladderPick : List ℚ → ℚ → ℚ
  | [], _ => 0
  | [v], _ => v
  | v :: w :: rest, r => if r > v then v else ladderPick (w :: rest) r

/-- `SetAnalogRange`, 2000A branch (lines 1977-2029): 20 mV to 20 V. -/
def roundRange2000a (r : ℚ) : ℚ :=
  if r > 20 then 20
  else if r > 10 then 10
  else if r > 5 then 5
  else if r > 2 then 2
  else if r > 1 then 1
  else if r > 1/2 then 1/2
  else if r > 1/5 then 1/5
  else if r > 1/10 then 1/10
  else if r > 1/20 then 1/20
  else 1/50

/-- `SetAnalogRange`, 3000A branch (lines 2030-2082): same ladder as the
2000A branch. -/
def roundRange3000a (r : ℚ) : ℚ :=
  if r > 20 then 20
  else if r > 10 then 10
  else if r > 5 then 5
  else if r > 2 then 2
  else if r > 1 then 1
  else if r > 1/2 then 1/2
  else if r > 1/5 then 1/5
  else if r > 1/10 then 1/10
  else if r > 1/20 then 1/20
  else 1/50

/-- `SetAnalogRange`, 4000A branch (lines 2083-2157): 10 mV to 50 V. -/
def roundRange4000a (r : ℚ) : ℚ :=
  if r > 50 then 50
  else if r > 20 then 20
  else if r > 10 then 10
  else if r > 5 then 5
  else if r > 2 then 2
  else if r > 1 then 1
  else if r > 1/2 then 1/2
  else if r > 1/5 then 1/5
  else if r > 1/10 then 1/10
  else if r > 1/20 then 1/20
  else if r > 1/50 then 1/50
  else 1/100

/-- `SetAnalogRange`, 5000A branch (lines 2158-2215): 10 mV to 20 V. -/
def roundRange5000a (r : ℚ) : ℚ :=
  if r > 20 then 20
  else if r > 10 then 10
  else if r > 5 then 5
  else if r > 2 then 2
  else if r > 1 then 1
  else if r > 1/2 then 1/2
  else if r > 1/5 then 1/5
  else if r > 1/10 then 1/10
  else if r > 1/20 then 1/20
  else if r > 1/50 then 1/50
  else 1/100

/-- `SetAnalogRange`, 6000A branch (lines 2216-2293): 10 mV to 200 V
(intelligent probes). -/
def roundRange6000a (r : ℚ) : ℚ :=
  if r > 200 then 200
  else if r > 100 then 100
  else if r > 50 then 50
  else if r > 20 then 20
  else if r > 10 then 10
  else if r > 5 then 5
  else if r > 2 then 2
  else if r > 1 then 1
  else if r > 1/2 then 1/2
  else if r > 1/5 then 1/5
  else if r > 1/10 then 1/10
  else if r > 1/20 then 1/20
  else if r > 1/50 then 1/50
  else 1/100

/-- `SetAnalogRange`, PSOSPA (3000E) branch (lines 2294-2361): 5 mV to
20 V. -/
def roundRangePsospa (r : ℚ) : ℚ :=
  if r > 20 then 20
  else if r > 10 then 10
  else if r > 5 then 5
  else if r > 2 then 2
  else if r > 1 then 1
  else if r > 1/2 then 1/2
  else if r > 1/5 then 1/5
  else if r > 1/10 then 1/10
  else if r > 1/20 then 1/20
  else if r > 1/50 then 1/50
  else if r > 1/100 then 1/100
  else 1/200

/-- The rounded range stored in `g_roundedRange` by the series branch of
`SetAnalogRange` selected by `g_pico_type` (after the 50 Ω cap, which is
applied by the caller). -/
def roundRangeValue (pt : PicoType) (r : ℚ) : ℚ :=
  match pt with
  | .pico2000a => roundRange2000a r
  | .pico3000a => roundRange3000a r
  | .pico4000a => roundRange4000a r
  | .pico5000a => roundRange5000a r
  | .pico6000a => roundRange6000a r
  | .picoPsospa => roundRangePsospa r

/-- The supported discrete range values (volts peak, the unit of
`g_roundedRange`) of each series branch, largest first, exactly the
thresholds of the branch's ladder. -/
def supportedRanges (pt : PicoType) : List ℚ :=
  match pt with
  | .pico2000a => [20, 10, 5, 2, 1, 1/2, 1/5, 1/10, 1/20, 1/50]
  | .pico3000a => [20, 10, 5, 2, 1, 1/2, 1/5, 1/10, 1/20, 1/50]
  | .pico4000a => [50, 20, 10, 5, 2, 1, 1/2, 1/5, 1/10, 1/20, 1/50, 1/100]
  | .pico5000a => [20, 10, 5, 2, 1, 1/2, 1/5, 1/10, 1/20, 1/50, 1/100]
  | .pico6000a =>
      [200, 100, 50, 20, 10, 5, 2, 1, 1/2, 1/5, 1/10, 1/20, 1/50, 1/100]
  | .picoPsospa =>
      [20, 10, 5, 2, 1, 1/2, 1/5, 1/10, 1/20, 1/50, 1/100, 1/200]

/-- Each literal nested-if ladder agrees with `ladderPick` over its list
of supported ranges. -/
theorem roundRangeValue_eq_ladderPick (pt : PicoType) (r : ℚ) :
    roundRangeValue pt r = ladderPick (supportedRanges pt) r := by
  cases pt <;>
    simp [roundRangeValue, supportedRanges, ladderPick, roundRange2000a,
      roundRange3000a, roundRange4000a, roundRange5000a, roundRange6000a,
      roundRangePsospa]

/-- `Modelled from the spec` would be wrong here: this definition follows
the SPEC's words for `RoundRange` ("the smallest supported range ≥ r"),
to be compared with the source's `roundRangeValue`.  `none` when no
supported range is ≥ r. -/
def specSmallestSupportedGE (pt : PicoType) (r : ℚ) : Option ℚ :=
  (supportedRanges pt).foldl
    (fun acc v => if r ≤ v then some v else acc) none

theorem ladderPick_mem (L : List ℚ) (hL : L ≠ []) (r : ℚ) :
    ladderPick L r ∈ L := by
  induction L with
  | nil => exact absurd rfl hL
  | cons v rest ih =>
      cases rest with
      | nil => simp [ladderPick]
      | cons w rest2 =>
          by_cases h : r > v
          · simp [ladderPick, h]
          · rw [ladderPick, if_neg h]
            exact List.mem_cons_of_mem v (ih (by simp))

theorem ladderPick_ge_of_lt (L : List ℚ) (r : ℚ)
    (hs : L.Sorted (· > ·)) :
    ∀ w ∈ L, w < r → w ≤ ladderPick L r := by
  induction L with
  | nil => intro w hw; simp at hw
  | cons v rest ih =>
      intro w hw hwr
      cases rest with
      | nil =>
          simp at hw
          simp [ladderPick, hw]
      | cons u rest2 =>
          by_cases h : r > v
          · have hvmax := (List.sorted_cons.mp hs).1
            simp [ladderPick, h]
            rcases List.mem_cons.mp hw with h1 | h2
            · exact le_of_eq h1
            · exact le_of_lt (hvmax w h2)
          · have hrest := (List.sorted_cons.mp hs).2
            rcases List.mem_cons.mp hw with h1 | h2
            · exact absurd (h1 ▸ hwr) h
            · simpa [ladderPick, h] using ih hrest w h2 hwr

theorem ladderPick_min_of_le (L : List ℚ) (r : ℚ)
    (hs : L.Sorted (· > ·)) (hle : r ≤ ladderPick L r) :
    ∀ w ∈ L, ladderPick L r ≤ w := by
  induction L with
  | nil => intro w hw; simp at hw
  | cons v rest ih =>
      cases rest with
      | nil =>
          intro w hw
          simp at hw
          simp [ladderPick, hw]
      | cons u rest2 =>
          by_cases h : r > v
          · exfalso
            rw [ladderPick, if_pos h] at hle
            exact absurd (lt_of_le_of_lt hle h) (lt_irrefl r)
          · have hrest := (List.sorted_cons.mp hs).2
            have hvgt := (List.sorted_cons.mp hs).1
            rw [ladderPick, if_neg h] at hle ⊢
            intro w hw
            rcases List.mem_cons.mp hw with h1 | h2
            · subst h1
              have hmem : ladderPick (u :: rest2) r ∈ u :: rest2 :=
                ladderPick_mem _ (by simp) r
              exact le_of_lt (hvgt _ hmem)
            · exact ih hrest hle w h2

end RangeLadder

section StateMachine

/-- The shared mutable acquisition state: the globals of
`PicoSCPIServer.cpp` lines 150-201 (`g_channelOn`, `g_roundedRange`,
`g_offset`, `g_memDepth`, `g_sampleInterval`, the during-arm copies, the
trigger state and the MSO pod state), plus two ghost fields: the driver
call log `events` and the undefined-behaviour flag `ubDivByZero`.
Per-series hardware range/bandwidth code maps (`g_range_2000a`, ...) are
determined one-to-one by `roundedRange` in every branch that writes them
and are not duplicated here; `g_scaleValue`, `g_timebase` and the AWG
state play no part in the modelled claims. -/
structure BridgeState where
  picoType : PicoType
  series : ℕ
  numChannels : ℕ
  numDigitalPods : ℕ
  channelOn : ℕ → Bool
  coupling : ℕ → Coupling
  roundedRange : ℕ → ℚ
  offset : ℕ → ℚ
  msoPodThresholdVoltage : ℕ → ℚ
  memDepth : ℕ
  sampleInterval : ℤ
  channelOnDuringArm : ℕ → Bool
  sampleIntervalDuringArm : ℤ
  captureMemDepth : ℕ
  offsetDuringArm : ℕ → ℚ
  triggerArmed : Bool
  triggerOneShot : Bool
  memDepthChanged : Bool
  triggerDelay : ℤ
  triggerVoltage : ℚ
  triggerChannel : ℕ
  triggerSampleIndex : ℕ
  msoPodThreshold : ℕ → ℕ → ℤ
  msoPodEnabled : ℕ → Bool
  msoPodEnabledDuringArm : ℕ → Bool
  lastTriggerWasForced : Bool
  events : List DevEvent
  ubDivByZero : Bool

/-- Record one driver call in the ghost log. -/
def pushEvent (e : DevEvent) (s : BridgeState) : BridgeState :=
  { s with events := e :: s.events }

/-- `BridgeSCPIServer::ChannelType`. -/
inductive ChannelType where
  | analog
  | digital
  | externalTrigger
deriving DecidableEq

/-- `PicoSCPIServer::GetChannelType` (lines 1756-1764): the auxiliary id
first, then anything above `0xff` (the packed digital flag/lane bits) is
digital, else analog. -/
def GetChannelType (channel : ℕ) : ChannelType :=
  if channel = PICO_TRIGGER_AUX then .externalTrigger
  else if channel > 0xff then .digital
  else .analog

/-- `StartInternal` (lines 3393-3427): compute the pre/post-trigger
split with `prePostSplit`, record it in `g_triggerSampleIndex`, and
issue `psXXXXRunBlock`.  The C++ division `g_triggerDelay /
g_sampleInterval` has no zero guard; a zero divisor is recorded in the
ghost flag. -/
def StartInternalM (s : BridgeState) : BridgeState :=
  let s := if s.sampleInterval = 0 then { s with ubDivByZero := true } else s
  let split := prePostSplit s.triggerDelay s.sampleInterval s.memDepth
  pushEvent (.runBlock split.1 split.2) { s with triggerSampleIndex := split.1 }

/-- `UpdateTrigger` line 2875: the trigger source is analog-like when it
is a channel id below the channel count or the auxiliary input. -/
def triggerIsAnalog (s : BridgeState) : Bool :=
  decide (s.triggerChannel < s.numChannels)
    || decide (s.triggerChannel = PICO_TRIGGER_AUX)

/-- `UpdateTrigger` lines 2877-2888: the trigger level converted from
volts to ADC counts, `(g_triggerVoltage - offset) / scale` with
`scale = g_roundedRange[chan] / 32767` (guarded against a zero rounded
range). -/
def TrigCodeQ (s : BridgeState) : ℚ :=
  let offset := if triggerIsAnalog s then s.offset s.triggerChannel else 0
  let scale : ℚ :=
    if triggerIsAnalog s then
      let sc := s.roundedRange s.triggerChannel / 32767
      if sc = 0 then 1 else sc
    else 1
  (s.triggerVoltage - offset) / scale

/-- `UpdateTrigger` lines 2895-2899: a negative
`triggerDelaySamples = g_triggerDelay / g_sampleInterval` becomes the
driver `delay` argument (samples between trigger and capture start);
otherwise zero. -/
def TriggerDelayParam (s : BridgeState) : ℕ :=
  let tds := Int.tdiv s.triggerDelay s.sampleInterval
  if tds < 0 then (-tds).toNat else 0

/-- The integer threshold each series branch of `UpdateTrigger` passes
to `SetSimpleTrigger` for an analog source: `trunc(trig_code)` on the
2000A (line 2923) and 5000A (line 3135) branches, `round(trig_code)` on
the 3000A (line 3044), 4000A (line 3102), 6000A (line 3252) and PSOSPA
(line 3317) branches. -/
def TriggerThresholdArg (s : BridgeState) : ℤ :=
  match s.picoType with
  | .pico2000a | .pico5000a => ctruncQ (TrigCodeQ s)
  | _ => croundQ (TrigCodeQ s)

/-- The driver trigger-configuration call of `UpdateTrigger` (the
per-series switch, lines 2901-3362), condensed to its event: the
auxiliary source always gets threshold `0`; an analog source gets the
per-series rounded `trig_code`; a digital source gets the lane
conditions (no timeout in that API).  The 4000A series has neither an
external trigger input nor a digital trigger option (log-only paths,
`none` here). -/
def TriggerConfigEvent (timeoutUs : ℕ) (s : BridgeState) : Option DevEvent :=
  let delay := TriggerDelayParam s
  if s.triggerChannel = PICO_TRIGGER_AUX then
    match s.picoType with
    | .pico4000a => none
    | _ => some (.simpleTrigger PICO_TRIGGER_AUX 0 delay timeoutUs)
  else if s.triggerChannel < s.numChannels then
    some (.simpleTrigger s.triggerChannel (TriggerThresholdArg s) delay timeoutUs)
  else
    match s.picoType with
    | .pico4000a => none
    | _ => some (.digitalTrigger ((s.triggerChannel - s.numChannels) % 8))

/-- Record the trigger-configuration driver call, when the series makes
one. -/
def PushTriggerDeviceConfig (timeoutUs : ℕ) (s : BridgeState) : BridgeState :=
  match TriggerConfigEvent timeoutUs s with
  | none => s
  | some e => pushEvent e s

mutual

/-- `UpdateTrigger(force)` (lines 2861-3366): set the forced/one-shot
flags and the timeout (1 µs when forcing, else 0), bail out before any
device call when `g_sampleInterval == 0` ("Bail rather than dividing by
zero"), push the trigger configuration, and restart the capture when the
trigger is currently armed.  The fuel argument bounds the (finite)
mutual recursion with `StartCaptureM`. -/
def UpdateTriggerM : ℕ → Bool → BridgeState → BridgeState
  | 0, _, s => s
  | fuel + 1, force, s =>
    let timeoutUs : ℕ := if force then 1 else 0
    let s :=
      if force then
        { s with lastTriggerWasForced := true, triggerOneShot := true }
      else
        { s with lastTriggerWasForced := false }
    if s.sampleInterval = 0 then s
    else
      let s := PushTriggerDeviceConfig timeoutUs s
      if s.triggerArmed then StartCaptureM fuel true false s else s

/-- `StartCapture(stopFirst, force)` (lines 3429-3476): restore a
non-forced trigger when the previous trigger was forced, copy the live
configuration into the during-arm snapshot, optionally stop, call
`StartInternal`, and mark the trigger armed (the driver is modelled as
answering `PICO_OK`, so the retry loop and the failure path are not
taken). -/
def StartCaptureM : ℕ → Bool → Bool → BridgeState → BridgeState
  | 0, _, _, s => s
  | fuel + 1, stopFirst, force, s =>
    let s :=
      if s.lastTriggerWasForced && !force then
        UpdateTriggerM fuel false (pushEvent .stop { s with triggerOneShot := false })
      else s
    let s :=
      { s with
        offsetDuringArm := s.offset
        channelOnDuringArm := s.channelOn
        msoPodEnabledDuringArm := fun i =>
          if i < s.numDigitalPods then s.msoPodEnabled i else s.msoPodEnabledDuringArm i
        memDepthChanged := s.memDepthChanged || decide (s.captureMemDepth ≠ s.memDepth)
        captureMemDepth := s.memDepth
        sampleIntervalDuringArm := s.sampleInterval }
    let s := if stopFirst then pushEvent .stop s else s
    let s := StartInternalM s
    { s with triggerArmed := true }

end

/-- Fuel covering every call chain the source can produce: the deepest is
`StartCapture → UpdateTrigger → StartCapture` (the restore path resets
`g_lastTriggerWasForced`, so the chain stops there). -/
def FUEL : ℕ := 6

/-- `UpdateChannel` (lines 2755-2856): push the channel's front-end
configuration (the 6000A/PSOSPA branches only call `SetChannelOn` for an
enabled channel and `SetChannelOff` otherwise) and reconfigure the
trigger when the touched channel is the trigger source. -/
def UpdateChannelM (fuel : ℕ) (chan : ℕ) (s : BridgeState) : BridgeState :=
  match s.picoType with
  | .pico2000a | .pico3000a | .pico4000a | .pico5000a =>
    let s := pushEvent (.setChannelHW chan (s.channelOn chan)) s
    if chan = s.triggerChannel then UpdateTriggerM fuel false s else s
  | .pico6000a | .picoPsospa =>
    if s.channelOn chan then
      let s := pushEvent (.setChannelHW chan true) s
      if chan = s.triggerChannel then UpdateTriggerM fuel false s else s
    else pushEvent (.setChannelHW chan false) s

/-- `EnableMsoPod` (lines 3478-3553): mark the pod enabled and push its
thresholds/hysteresis to the device. -/
def EnableMsoPodM (npod : ℕ) (s : BridgeState) : BridgeState :=
  pushEvent (.setPodHW npod)
    { s with msoPodEnabled := fun i => if i = npod then true else s.msoPodEnabled i }


/-- `PicoSCPIServer::AcquisitionStart(oneShot)` (lines 1766-1804):
ignored while armed; ignored (logged, no state change and no device
call) when no analog channel and no digital pod is enabled; otherwise
start the capture and record the one-shot flag. -/
def AcquisitionStart (oneShot : Bool) (s : BridgeState) : BridgeState :=
  if s.triggerArmed then s
  else
    let anyChannels :=
      ((List.range s.numChannels).any fun i => s.channelOn i)
        || ((List.range s.numDigitalPods).any fun i => s.msoPodEnabled i)
    if anyChannels then
      { StartCaptureM FUEL false false s with triggerOneShot := oneShot }
    else s

/-- `PicoSCPIServer::AcquisitionForceTrigger` (lines 1806-1819): stop
and disarm if armed, reconfigure the trigger forced (1 µs auto-trigger
timeout), and start a capture with `force = true`. -/
def AcquisitionForceTrigger (s : BridgeState) : BridgeState :=
  let s :=
    if s.triggerArmed then { pushEvent .stop s with triggerArmed := false } else s
  let s := UpdateTriggerM FUEL true s
  StartCaptureM FUEL true true s

/-- `PicoSCPIServer::AcquisitionStop` (lines 1821-1831): stop the
device, convert any in-progress trigger to one shot and disarm. -/
def AcquisitionStop (s : BridgeState) : BridgeState :=
  { pushEvent .stop s with triggerOneShot := true, triggerArmed := false }

/-- `PicoSCPIServer::SetTriggerDelay(delay_fs)` (lines 2661-2667).  The
C++ parameter is `uint64_t` and is stored into the `int64_t`
`g_triggerDelay`, so a negative delay sent by the client arrives intact
after the two's-complement reinterpretation; the model takes the signed
value directly. -/
def SetTriggerDelay (delay : ℤ) (s : BridgeState) : BridgeState :=
  UpdateTriggerM FUEL false { s with triggerDelay := delay }

/-- `PicoSCPIServer::SetTriggerLevel(level_V)` (lines 2720-2726). -/
def SetTriggerLevel (level : ℚ) (s : BridgeState) : BridgeState :=
  UpdateTriggerM FUEL false { s with triggerVoltage := level }

/-- `PicoSCPIServer::SetTriggerSource(chIndex)` (lines 2669-2718): set
`g_triggerChannel` from the packed channel id, auto-enabling a
not-yet-enabled analog channel or digital pod; then stop, reconfigure
the trigger, and restart the capture when it was armed.  (In the
external-trigger case the source falls through an empty `default`
after an extra `UpdateTrigger` call.) -/
def SetTriggerSource (chIndex : ℕ) (s : BridgeState) : BridgeState :=
  let s :=
    match GetChannelType chIndex with
    | .analog =>
      let trig := chIndex % 256
      let s := { s with triggerChannel := trig }
      if s.channelOn trig then s
      else
        UpdateChannelM FUEL trig
          { s with channelOn := fun i => if i = trig then true else s.channelOn i }
    | .digital =>
      let npod := chIndex % 256
      let nchan := (chIndex / 256) % 256
      let s := { s with triggerChannel := s.numChannels + npod * 8 + nchan }
      if s.msoPodEnabled npod then s else EnableMsoPodM npod s
    | .externalTrigger =>
      UpdateTriggerM FUEL false { s with triggerChannel := PICO_TRIGGER_AUX }
  let wasOn := s.triggerArmed
  let s := pushEvent .stop s
  let s := UpdateTriggerM FUEL false s
  if wasOn then StartCaptureM FUEL false false s else s

/-- `PicoSCPIServer::SetAnalogRange(chIndex, range_V)` (lines
1967-2374): cap the request at 5 V for 50 Ω coupling on the 6000A and
PSOSPA branches, store the selected hardware range and the rounded
range (both fixed by `roundRangeValue` in every branch), mark the
buffers for reallocation, and push the channel configuration. -/
def SetAnalogRange (chIndex : ℕ) (rangeV : ℚ) (s : BridgeState) : BridgeState :=
  let channelId := chIndex % 256
  let capped :=
    match s.picoType with
    | .pico6000a | .picoPsospa =>
        if s.coupling channelId = Coupling.dc50 then min rangeV 5 else rangeV
    | _ => rangeV
  let s :=
    { s with
      roundedRange := fun i =>
        if i = channelId then roundRangeValue s.picoType capped
        else s.roundedRange i
      memDepthChanged := true }
  UpdateChannelM FUEL channelId s

/-- `PicoSCPIServer::SetDigitalThreshold(chIndex, threshold_V)` (lines
2424-2460): on series 2/3/5 convert against the 5 V threshold range and
write the shared code into lanes `i < 7` of the pod (the loop bound in
the source), on series 6 convert against 8 V and write one lane; record
the pod's last-known threshold voltage; re-push the pod if it is
enabled.  (The `int16_t` code cannot overflow for in-range threshold
voltages.) -/
def SetDigitalThreshold (chIndex : ℕ) (thresholdV : ℚ) (s : BridgeState) :
    BridgeState :=
  let channelId := chIndex % 256
  let laneId := (chIndex / 256) % 256
  let s :=
    if s.series = 2 ∨ s.series = 3 ∨ s.series = 5 then
      let code := croundQ (thresholdV * 32767 / 5)
      { s with
        msoPodThreshold := fun p l =>
          if p = channelId ∧ l < 7 then code else s.msoPodThreshold p l
        msoPodThresholdVoltage := fun p =>
          if p = channelId then thresholdV else s.msoPodThresholdVoltage p }
    else if s.series = 6 then
      let code := croundQ (thresholdV * 32767 / 8)
      { s with
        msoPodThreshold := fun p l =>
          if p = channelId ∧ l = laneId then code else s.msoPodThreshold p l
        msoPodThresholdVoltage := fun p =>
          if p = channelId then thresholdV else s.msoPodThresholdVoltage p }
    else s
  if s.msoPodEnabled channelId then EnableMsoPodM channelId s else s

/-- `PicoSCPIServer::SetChannelEnabled(chIndex, enabled)` (lines
1833-1950): set the digital pod or analog channel flag (the driver call
is modelled as succeeding, so the flag is recorded), mark the buffers
for reallocation, and reconfigure the trigger. -/
def SetChannelEnabled (chIndex : ℕ) (enabled : Bool) (s : BridgeState) :
    BridgeState :=
  let s :=
    if GetChannelType chIndex = ChannelType.digital then
      let podIndex := chIndex % 256
      pushEvent (.setPodHW podIndex)
        { s with
          msoPodEnabled := fun i => if i = podIndex then enabled else s.msoPodEnabled i }
    else
      let chId := chIndex % 256
      UpdateChannelM FUEL chId
        { s with channelOn := fun i => if i = chId then enabled else s.channelOn i }
  UpdateTriggerM FUEL false { s with memDepthChanged := true }

/-- `PicoSCPIServer::SetSampleDepth(depth)` (lines 2653-2659). -/
def SetSampleDepth (depth : ℕ) (s : BridgeState) : BridgeState :=
  UpdateTriggerM FUEL false { s with memDepth := depth }

/-- The state after `main.cpp` finishes startup and the per-connection
server object is constructed: the global initialisers
(`g_memDepth = 1000000`, `g_sampleInterval = 0`, trigger disarmed, delay
0, channel 0 as source), the init loops (all channels and pods off,
offsets 0, DC coupling), and the constructor's fixed auxiliary-input
range (`g_roundedRange[PICO_TRIGGER_AUX] = 2`, offset 0).
`g_triggerSampleIndex` is never initialised in the source; it is first
written on the first arm, and the model starts it at 0. -/
def InitState (pt : PicoType) (series numChannels numDigitalPods : ℕ) :
    BridgeState :=
  { picoType := pt
    series := series
    numChannels := numChannels
    numDigitalPods := numDigitalPods
    channelOn := fun _ => false
    coupling := fun _ => Coupling.dc1M
    roundedRange := fun i => if i = PICO_TRIGGER_AUX then 2 else 0
    offset := fun _ => 0
    msoPodThresholdVoltage := fun _ => 0
    memDepth := 1000000
    sampleInterval := 0
    channelOnDuringArm := fun _ => false
    sampleIntervalDuringArm := 0
    captureMemDepth := 0
    offsetDuringArm := fun _ => 0
    triggerArmed := false
    triggerOneShot := false
    memDepthChanged := false
    triggerDelay := 0
    triggerVoltage := 0
    triggerChannel := 0
    triggerSampleIndex := 0
    msoPodThreshold := fun _ _ => 0
    msoPodEnabled := fun _ => false
    msoPodEnabledDuringArm := fun _ => false
    lastTriggerWasForced := false
    events := []
    ubDivByZero := false }

/-- The frozen during-arm snapshot: exactly the `*DuringArm` globals and
`g_captureMemDepth`, the copies `StartCapture` takes at arm time. -/
structure ArmSnapshot where
  channelOnDuringArm : ℕ → Bool
  offsetDuringArm : ℕ → ℚ
  msoPodEnabledDuringArm : ℕ → Bool
  sampleIntervalDuringArm : ℤ
  captureMemDepth : ℕ

/-- Project the during-arm snapshot out of the state. -/
def snapshotOf (s : BridgeState) : ArmSnapshot :=
  { channelOnDuringArm := s.channelOnDuringArm
    offsetDuringArm := s.offsetDuringArm
    msoPodEnabledDuringArm := s.msoPodEnabledDuringArm
    sampleIntervalDuringArm := s.sampleIntervalDuringArm
    captureMemDepth := s.captureMemDepth }

/-- Modelled from the spec: the per-capture frame metadata assembled by
the data-plane `WaveformServerThread`, whose source file is not among
the repository files provided (only its callers in `main.cpp` are).
Per the spec, a frame carries "enough session metadata (sample
interval, trigger sample index, enabled-channel bitmap)", and the
data-plane context "reads only the frozen during-arm snapshot, never
the live configuration". -/
structure FrameMetadata where
  sampleIntervalFs : ℤ
  triggerSampleIndex : ℕ
  enabledChannels : List Bool
  enabledPods : List Bool
deriving DecidableEq

/-- Modelled from the spec (see `FrameMetadata`): the metadata of a
frame downloaded from state `s`, read from the during-arm snapshot. -/
def frameMetadataOf (s : BridgeState) : FrameMetadata :=
  { sampleIntervalFs := s.sampleIntervalDuringArm
    triggerSampleIndex := s.triggerSampleIndex
    enabledChannels := (List.range s.numChannels).map s.channelOnDuringArm
    enabledPods := (List.range s.numDigitalPods).map s.msoPodEnabledDuringArm }

/-- Modelled from the spec: the end of one waveform download in the
data-plane `WaveformServerThread` (its source file is not among the
repository files provided).  Per the spec's state machine: "Implicit
rearm: after a completed one-shot capture is fully downloaded, if
one-shot is false, automatically return to ARMED using the same
snapshot rules as START"; a one-shot capture leaves the trigger
disarmed. -/
def WaveformDownloadComplete (s : BridgeState) : BridgeState :=
  if s.triggerOneShot then { s with triggerArmed := false }
  else StartCaptureM FUEL false false { s with triggerArmed := false }

end StateMachine

section Invariants

/-- The live (non-snapshot, non-ghost) configuration fields that the
arm/trigger-reconfiguration machinery never writes. -/
structure LiveConfig where
  picoType : PicoType
  series : ℕ
  numChannels : ℕ
  numDigitalPods : ℕ
  channelOn : ℕ → Bool
  coupling : ℕ → Coupling
  roundedRange : ℕ → ℚ
  offset : ℕ → ℚ
  msoPodThresholdVoltage : ℕ → ℚ
  memDepth : ℕ
  sampleInterval : ℤ
  triggerDelay : ℤ
  triggerVoltage : ℚ
  triggerChannel : ℕ
  msoPodThreshold : ℕ → ℕ → ℤ
  msoPodEnabled : ℕ → Bool

/-- Project the live configuration out of the state. -/
def liveOf (s : BridgeState) : LiveConfig :=
  { picoType := s.picoType
    series := s.series
    numChannels := s.numChannels
    numDigitalPods := s.numDigitalPods
    channelOn := s.channelOn
    coupling := s.coupling
    roundedRange := s.roundedRange
    offset := s.offset
    msoPodThresholdVoltage := s.msoPodThresholdVoltage
    memDepth := s.memDepth
    sampleInterval := s.sampleInterval
    triggerDelay := s.triggerDelay
    triggerVoltage := s.triggerVoltage
    triggerChannel := s.triggerChannel
    msoPodThreshold := s.msoPodThreshold
    msoPodEnabled := s.msoPodEnabled }

theorem liveOf_pushEvent (e : DevEvent) (s : BridgeState) :
    liveOf (pushEvent e s) = liveOf s := rfl

theorem liveOf_StartInternalM (s : BridgeState) :
    liveOf (StartInternalM s) = liveOf s := by
  unfold StartInternalM
  split <;> rfl

theorem liveOf_PushTriggerDeviceConfig (u : ℕ) (s : BridgeState) :
    liveOf (PushTriggerDeviceConfig u s) = liveOf s := by
  unfold PushTriggerDeviceConfig
  cases TriggerConfigEvent u s <;> rfl

theorem liveOf_mutual (fuel : ℕ) :
    (∀ force s, liveOf (UpdateTriggerM fuel force s) = liveOf s) ∧
      (∀ stopFirst force s,
        liveOf (StartCaptureM fuel stopFirst force s) = liveOf s) := by
  induction fuel with
  | zero => exact ⟨fun _ _ => rfl, fun _ _ _ => rfl⟩
  | succ n ih =>
      constructor
      · intro force s
        rw [UpdateTriggerM]
        dsimp only
        split_ifs <;>
          first
          | rfl
          | exact (ih.2 _ _ _).trans
              ((liveOf_PushTriggerDeviceConfig _ _).trans rfl)
          | exact (liveOf_PushTriggerDeviceConfig _ _).trans rfl
      · intro stopFirst force s
        rw [StartCaptureM]
        try dsimp only
        split_ifs <;>
          first
          | exact (liveOf_StartInternalM _).trans ((ih.1 _ _).trans rfl)
          | exact (liveOf_StartInternalM _).trans rfl

end Invariants

section MoreInvariants

theorem events_mono_StartInternalM (s : BridgeState) {e : DevEvent}
    (h : e ∈ s.events) : e ∈ (StartInternalM s).events := by
  unfold StartInternalM
  split <;> exact List.mem_cons_of_mem _ h

theorem events_mono_PushTriggerDeviceConfig (u : ℕ) (s : BridgeState)
    {e : DevEvent} (h : e ∈ s.events) :
    e ∈ (PushTriggerDeviceConfig u s).events := by
  unfold PushTriggerDeviceConfig
  cases TriggerConfigEvent u s
  · exact h
  · exact List.mem_cons_of_mem _ h

theorem events_mono_mutual (fuel : ℕ) :
    (∀ force s, ∀ e ∈ s.events, e ∈ (UpdateTriggerM fuel force s).events) ∧
      (∀ stopFirst force s, ∀ e ∈ s.events,
        e ∈ (StartCaptureM fuel stopFirst force s).events) := by
  induction fuel with
  | zero => exact ⟨fun _ _ _ h => h, fun _ _ _ _ h => h⟩
  | succ n ih =>
      constructor
      · intro force s e he
        rw [UpdateTriggerM]
        dsimp only
        split_ifs <;>
          first
          | exact he
          | exact ih.2 _ _ _ _ (events_mono_PushTriggerDeviceConfig _ _ he)
          | exact events_mono_PushTriggerDeviceConfig _ _ he
      · intro stopFirst force s e he
        rw [StartCaptureM]
        try dsimp only
        split_ifs <;>
          first
          | exact events_mono_StartInternalM _ (List.mem_cons_of_mem _
              (ih.1 _ _ _ (List.mem_cons_of_mem _ he)))
          | exact events_mono_StartInternalM _
              (ih.1 _ _ _ (List.mem_cons_of_mem _ he))
          | exact events_mono_StartInternalM _ (List.mem_cons_of_mem _ he)
          | exact events_mono_StartInternalM _ he

theorem StartInternalM_channelOnDuringArm (s : BridgeState) :
    (StartInternalM s).channelOnDuringArm = s.channelOnDuringArm := by
  unfold StartInternalM; split <;> rfl

theorem StartInternalM_offsetDuringArm (s : BridgeState) :
    (StartInternalM s).offsetDuringArm = s.offsetDuringArm := by
  unfold StartInternalM; split <;> rfl

theorem StartInternalM_msoPodEnabledDuringArm (s : BridgeState) :
    (StartInternalM s).msoPodEnabledDuringArm = s.msoPodEnabledDuringArm := by
  unfold StartInternalM; split <;> rfl

theorem StartInternalM_sampleIntervalDuringArm (s : BridgeState) :
    (StartInternalM s).sampleIntervalDuringArm = s.sampleIntervalDuringArm := by
  unfold StartInternalM; split <;> rfl

theorem StartInternalM_captureMemDepth (s : BridgeState) :
    (StartInternalM s).captureMemDepth = s.captureMemDepth := by
  unfold StartInternalM; split <;> rfl

theorem UpdateTriggerM_picoType (fuel : ℕ) (force : Bool) (s : BridgeState) :
    (UpdateTriggerM fuel force s).picoType = s.picoType :=
  congrArg LiveConfig.picoType ((liveOf_mutual fuel).1 force s)

theorem StartCaptureM_picoType (fuel : ℕ) (stopFirst force : Bool) (s : BridgeState) :
    (StartCaptureM fuel stopFirst force s).picoType = s.picoType :=
  congrArg LiveConfig.picoType ((liveOf_mutual fuel).2 stopFirst force s)

theorem UpdateTriggerM_series (fuel : ℕ) (force : Bool) (s : BridgeState) :
    (UpdateTriggerM fuel force s).series = s.series :=
  congrArg LiveConfig.series ((liveOf_mutual fuel).1 force s)

theorem StartCaptureM_series (fuel : ℕ) (stopFirst force : Bool) (s : BridgeState) :
    (StartCaptureM fuel stopFirst force s).series = s.series :=
  congrArg LiveConfig.series ((liveOf_mutual fuel).2 stopFirst force s)

theorem UpdateTriggerM_numChannels (fuel : ℕ) (force : Bool) (s : BridgeState) :
    (UpdateTriggerM fuel force s).numChannels = s.numChannels :=
  congrArg LiveConfig.numChannels ((liveOf_mutual fuel).1 force s)

theorem StartCaptureM_numChannels (fuel : ℕ) (stopFirst force : Bool) (s : BridgeState) :
    (StartCaptureM fuel stopFirst force s).numChannels = s.numChannels :=
  congrArg LiveConfig.numChannels ((liveOf_mutual fuel).2 stopFirst force s)

theorem UpdateTriggerM_numDigitalPods (fuel : ℕ) (force : Bool) (s : BridgeState) :
    (UpdateTriggerM fuel force s).numDigitalPods = s.numDigitalPods :=
  congrArg LiveConfig.numDigitalPods ((liveOf_mutual fuel).1 force s)

theorem StartCaptureM_numDigitalPods (fuel : ℕ) (stopFirst force : Bool) (s : BridgeState) :
    (StartCaptureM fuel stopFirst force s).numDigitalPods = s.numDigitalPods :=
  congrArg LiveConfig.numDigitalPods ((liveOf_mutual fuel).2 stopFirst force s)

theorem UpdateTriggerM_channelOn (fuel : ℕ) (force : Bool) (s : BridgeState) :
    (UpdateTriggerM fuel force s).channelOn = s.channelOn :=
  congrArg LiveConfig.channelOn ((liveOf_mutual fuel).1 force s)

theorem StartCaptureM_channelOn (fuel : ℕ) (stopFirst force : Bool) (s : BridgeState) :
    (StartCaptureM fuel stopFirst force s).channelOn = s.channelOn :=
  congrArg LiveConfig.channelOn ((liveOf_mutual fuel).2 stopFirst force s)

theorem UpdateTriggerM_coupling (fuel : ℕ) (force : Bool) (s : BridgeState) :
    (UpdateTriggerM fuel force s).coupling = s.coupling :=
  congrArg LiveConfig.coupling ((liveOf_mutual fuel).1 force s)

theorem StartCaptureM_coupling (fuel : ℕ) (stopFirst force : Bool) (s : BridgeState) :
    (StartCaptureM fuel stopFirst force s).coupling = s.coupling :=
  congrArg LiveConfig.coupling ((liveOf_mutual fuel).2 stopFirst force s)

theorem UpdateTriggerM_roundedRange (fuel : ℕ) (force : Bool) (s : BridgeState) :
    (UpdateTriggerM fuel force s).roundedRange = s.roundedRange :=
  congrArg LiveConfig.roundedRange ((liveOf_mutual fuel).1 force s)

theorem StartCaptureM_roundedRange (fuel : ℕ) (stopFirst force : Bool) (s : BridgeState) :
    (StartCaptureM fuel stopFirst force s).roundedRange = s.roundedRange :=
  congrArg LiveConfig.roundedRange ((liveOf_mutual fuel).2 stopFirst force s)

theorem UpdateTriggerM_offset (fuel : ℕ) (force : Bool) (s : BridgeState) :
    (UpdateTriggerM fuel force s).offset = s.offset :=
  congrArg LiveConfig.offset ((liveOf_mutual fuel).1 force s)

theorem StartCaptureM_offset (fuel : ℕ) (stopFirst force : Bool) (s : BridgeState) :
    (StartCaptureM fuel stopFirst force s).offset = s.offset :=
  congrArg LiveConfig.offset ((liveOf_mutual fuel).2 stopFirst force s)

theorem UpdateTriggerM_msoPodThresholdVoltage (fuel : ℕ) (force : Bool) (s : BridgeState) :
    (UpdateTriggerM fuel force s).msoPodThresholdVoltage = s.msoPodThresholdVoltage :=
  congrArg LiveConfig.msoPodThresholdVoltage ((liveOf_mutual fuel).1 force s)

theorem StartCaptureM_msoPodThresholdVoltage (fuel : ℕ) (stopFirst force : Bool) (s : BridgeState) :
    (StartCaptureM fuel stopFirst force s).msoPodThresholdVoltage = s.msoPodThresholdVoltage :=
  congrArg LiveConfig.msoPodThresholdVoltage ((liveOf_mutual fuel).2 stopFirst force s)

theorem UpdateTriggerM_memDepth (fuel : ℕ) (force : Bool) (s : BridgeState) :
    (UpdateTriggerM fuel force s).memDepth = s.memDepth :=
  congrArg LiveConfig.memDepth ((liveOf_mutual fuel).1 force s)

theorem StartCaptureM_memDepth (fuel : ℕ) (stopFirst force : Bool) (s : BridgeState) :
    (StartCaptureM fuel stopFirst force s).memDepth = s.memDepth :=
  congrArg LiveConfig.memDepth ((liveOf_mutual fuel).2 stopFirst force s)

theorem UpdateTriggerM_sampleInterval (fuel : ℕ) (force : Bool) (s : BridgeState) :
    (UpdateTriggerM fuel force s).sampleInterval = s.sampleInterval :=
  congrArg LiveConfig.sampleInterval ((liveOf_mutual fuel).1 force s)

theorem StartCaptureM_sampleInterval (fuel : ℕ) (stopFirst force : Bool) (s : BridgeState) :
    (StartCaptureM fuel stopFirst force s).sampleInterval = s.sampleInterval :=
  congrArg LiveConfig.sampleInterval ((liveOf_mutual fuel).2 stopFirst force s)

theorem UpdateTriggerM_triggerDelay (fuel : ℕ) (force : Bool) (s : BridgeState) :
    (UpdateTriggerM fuel force s).triggerDelay = s.triggerDelay :=
  congrArg LiveConfig.triggerDelay ((liveOf_mutual fuel).1 force s)

theorem StartCaptureM_triggerDelay (fuel : ℕ) (stopFirst force : Bool) (s : BridgeState) :
    (StartCaptureM fuel stopFirst force s).triggerDelay = s.triggerDelay :=
  congrArg LiveConfig.triggerDelay ((liveOf_mutual fuel).2 stopFirst force s)

theorem UpdateTriggerM_triggerVoltage (fuel : ℕ) (force : Bool) (s : BridgeState) :
    (UpdateTriggerM fuel force s).triggerVoltage = s.triggerVoltage :=
  congrArg LiveConfig.triggerVoltage ((liveOf_mutual fuel).1 force s)

theorem StartCaptureM_triggerVoltage (fuel : ℕ) (stopFirst force : Bool) (s : BridgeState) :
    (StartCaptureM fuel stopFirst force s).triggerVoltage = s.triggerVoltage :=
  congrArg LiveConfig.triggerVoltage ((liveOf_mutual fuel).2 stopFirst force s)

theorem UpdateTriggerM_triggerChannel (fuel : ℕ) (force : Bool) (s : BridgeState) :
    (UpdateTriggerM fuel force s).triggerChannel = s.triggerChannel :=
  congrArg LiveConfig.triggerChannel ((liveOf_mutual fuel).1 force s)

theorem StartCaptureM_triggerChannel (fuel : ℕ) (stopFirst force : Bool) (s : BridgeState) :
    (StartCaptureM fuel stopFirst force s).triggerChannel = s.triggerChannel :=
  congrArg LiveConfig.triggerChannel ((liveOf_mutual fuel).2 stopFirst force s)

theorem UpdateTriggerM_msoPodThreshold (fuel : ℕ) (force : Bool) (s : BridgeState) :
    (UpdateTriggerM fuel force s).msoPodThreshold = s.msoPodThreshold :=
  congrArg LiveConfig.msoPodThreshold ((liveOf_mutual fuel).1 force s)

theorem StartCaptureM_msoPodThreshold (fuel : ℕ) (stopFirst force : Bool) (s : BridgeState) :
    (StartCaptureM fuel stopFirst force s).msoPodThreshold = s.msoPodThreshold :=
  congrArg LiveConfig.msoPodThreshold ((liveOf_mutual fuel).2 stopFirst force s)

theorem UpdateTriggerM_msoPodEnabled (fuel : ℕ) (force : Bool) (s : BridgeState) :
    (UpdateTriggerM fuel force s).msoPodEnabled = s.msoPodEnabled :=
  congrArg LiveConfig.msoPodEnabled ((liveOf_mutual fuel).1 force s)

theorem StartCaptureM_msoPodEnabled (fuel : ℕ) (stopFirst force : Bool) (s : BridgeState) :
    (StartCaptureM fuel stopFirst force s).msoPodEnabled = s.msoPodEnabled :=
  congrArg LiveConfig.msoPodEnabled ((liveOf_mutual fuel).2 stopFirst force s)

/-- Arming freezes the live settings: whatever state `StartCapture` is
called in (with fuel to spare), the during-arm snapshot it leaves equals
the live configuration at the moment of the call (the restore-the-
unforced-trigger preamble does not touch any live setting). -/
theorem snapshot_fields_StartCaptureM (n : ℕ) (stopFirst force : Bool)
    (t : BridgeState) :
    (StartCaptureM (n + 1) stopFirst force t).channelOnDuringArm = t.channelOn ∧
      (StartCaptureM (n + 1) stopFirst force t).offsetDuringArm = t.offset ∧
      (∀ i, i < t.numDigitalPods →
        (StartCaptureM (n + 1) stopFirst force t).msoPodEnabledDuringArm i =
          t.msoPodEnabled i) ∧
      (StartCaptureM (n + 1) stopFirst force t).sampleIntervalDuringArm =
        t.sampleInterval ∧
      (StartCaptureM (n + 1) stopFirst force t).captureMemDepth = t.memDepth := by
  rw [StartCaptureM]
  try dsimp only
  split_ifs <;>
    refine ⟨?_, ?_, fun i hi => ?_, ?_, ?_⟩ <;>
      simp only [StartInternalM_channelOnDuringArm, StartInternalM_offsetDuringArm,
        StartInternalM_msoPodEnabledDuringArm, StartInternalM_sampleIntervalDuringArm,
        StartInternalM_captureMemDepth, pushEvent, UpdateTriggerM_channelOn,
        UpdateTriggerM_offset, UpdateTriggerM_numDigitalPods,
        UpdateTriggerM_msoPodEnabled, UpdateTriggerM_sampleInterval,
        UpdateTriggerM_memDepth] <;>
      first
      | rfl
      | rw [if_pos hi]

theorem TrigCodeQ_congr {s t : BridgeState} (h : liveOf s = liveOf t) :
    TrigCodeQ s = TrigCodeQ t := by
  unfold TrigCodeQ triggerIsAnalog
  rw [show s.triggerChannel = t.triggerChannel from
      congrArg LiveConfig.triggerChannel h,
    show s.numChannels = t.numChannels from congrArg LiveConfig.numChannels h,
    show s.offset = t.offset from congrArg LiveConfig.offset h,
    show s.roundedRange = t.roundedRange from congrArg LiveConfig.roundedRange h,
    show s.triggerVoltage = t.triggerVoltage from
      congrArg LiveConfig.triggerVoltage h]

theorem TriggerThresholdArg_congr {s t : BridgeState}
    (h : liveOf s = liveOf t) : TriggerThresholdArg s = TriggerThresholdArg t := by
  unfold TriggerThresholdArg
  rw [show s.picoType = t.picoType from congrArg LiveConfig.picoType h,
    TrigCodeQ_congr h]

theorem TriggerDelayParam_congr {s t : BridgeState}
    (h : liveOf s = liveOf t) : TriggerDelayParam s = TriggerDelayParam t := by
  unfold TriggerDelayParam
  rw [show s.triggerDelay = t.triggerDelay from
      congrArg LiveConfig.triggerDelay h,
    show s.sampleInterval = t.sampleInterval from
      congrArg LiveConfig.sampleInterval h]

theorem TriggerConfigEvent_congr (u : ℕ) {s t : BridgeState}
    (h : liveOf s = liveOf t) :
    TriggerConfigEvent u s = TriggerConfigEvent u t := by
  unfold TriggerConfigEvent
  rw [show s.triggerChannel = t.triggerChannel from
      congrArg LiveConfig.triggerChannel h,
    show s.numChannels = t.numChannels from congrArg LiveConfig.numChannels h,
    show s.picoType = t.picoType from congrArg LiveConfig.picoType h,
    TriggerThresholdArg_congr h, TriggerDelayParam_congr h]

end MoreInvariants

section ChannelInvariants

theorem liveOf_UpdateChannelM (fuel : ℕ) (chan : ℕ) (s : BridgeState) :
    liveOf (UpdateChannelM fuel chan s) = liveOf s := by
  unfold UpdateChannelM
  split <;> (try dsimp only) <;> split_ifs <;>
    first
    | rfl
    | exact ((liveOf_mutual fuel).1 _ _).trans rfl

theorem UpdateChannelM_channelOn (fuel : ℕ) (chan : ℕ) (s : BridgeState) :
    (UpdateChannelM fuel chan s).channelOn = s.channelOn :=
  congrArg LiveConfig.channelOn (liveOf_UpdateChannelM fuel chan s)

theorem UpdateChannelM_msoPodEnabled (fuel : ℕ) (chan : ℕ) (s : BridgeState) :
    (UpdateChannelM fuel chan s).msoPodEnabled = s.msoPodEnabled :=
  congrArg LiveConfig.msoPodEnabled (liveOf_UpdateChannelM fuel chan s)

theorem UpdateChannelM_triggerChannel (fuel : ℕ) (chan : ℕ) (s : BridgeState) :
    (UpdateChannelM fuel chan s).triggerChannel = s.triggerChannel :=
  congrArg LiveConfig.triggerChannel (liveOf_UpdateChannelM fuel chan s)

theorem UpdateChannelM_numChannels (fuel : ℕ) (chan : ℕ) (s : BridgeState) :
    (UpdateChannelM fuel chan s).numChannels = s.numChannels :=
  congrArg LiveConfig.numChannels (liveOf_UpdateChannelM fuel chan s)

theorem UpdateChannelM_numDigitalPods (fuel : ℕ) (chan : ℕ) (s : BridgeState) :
    (UpdateChannelM fuel chan s).numDigitalPods = s.numDigitalPods :=
  congrArg LiveConfig.numDigitalPods (liveOf_UpdateChannelM fuel chan s)

theorem UpdateChannelM_roundedRange (fuel : ℕ) (chan : ℕ) (s : BridgeState) :
    (UpdateChannelM fuel chan s).roundedRange = s.roundedRange :=
  congrArg LiveConfig.roundedRange (liveOf_UpdateChannelM fuel chan s)

theorem UpdateChannelM_offset (fuel : ℕ) (chan : ℕ) (s : BridgeState) :
    (UpdateChannelM fuel chan s).offset = s.offset :=
  congrArg LiveConfig.offset (liveOf_UpdateChannelM fuel chan s)

theorem UpdateChannelM_sampleInterval (fuel : ℕ) (chan : ℕ) (s : BridgeState) :
    (UpdateChannelM fuel chan s).sampleInterval = s.sampleInterval :=
  congrArg LiveConfig.sampleInterval (liveOf_UpdateChannelM fuel chan s)

theorem UpdateChannelM_memDepth (fuel : ℕ) (chan : ℕ) (s : BridgeState) :
    (UpdateChannelM fuel chan s).memDepth = s.memDepth :=
  congrArg LiveConfig.memDepth (liveOf_UpdateChannelM fuel chan s)

/-- `UpdateChannel` on a channel other than the trigger source makes
only the front-end driver call: it never reaches `UpdateTrigger`, so
the during-arm snapshot, the armed flag and the trigger sample index
are untouched. -/
theorem UpdateChannelM_ne_frame (fuel : ℕ) (chan : ℕ) (s : BridgeState)
    (h : chan ≠ s.triggerChannel) :
    snapshotOf (UpdateChannelM fuel chan s) = snapshotOf s ∧
      (UpdateChannelM fuel chan s).triggerArmed = s.triggerArmed ∧
      (UpdateChannelM fuel chan s).triggerSampleIndex = s.triggerSampleIndex := by
  unfold UpdateChannelM
  split <;> (try dsimp only) <;> split_ifs <;>
    first
    | exact ⟨rfl, rfl, rfl⟩
    | (exfalso; exact h (by assumption))

theorem frameMetadataOf_congr {a b : BridgeState}
    (h1 : snapshotOf a = snapshotOf b)
    (h2 : a.triggerSampleIndex = b.triggerSampleIndex)
    (h3 : a.numChannels = b.numChannels)
    (h4 : a.numDigitalPods = b.numDigitalPods) :
    frameMetadataOf a = frameMetadataOf b := by
  unfold frameMetadataOf
  rw [h2, h3, h4,
    show a.sampleIntervalDuringArm = b.sampleIntervalDuringArm from
      congrArg ArmSnapshot.sampleIntervalDuringArm h1,
    show a.channelOnDuringArm = b.channelOnDuringArm from
      congrArg ArmSnapshot.channelOnDuringArm h1,
    show a.msoPodEnabledDuringArm = b.msoPodEnabledDuringArm from
      congrArg ArmSnapshot.msoPodEnabledDuringArm h1]

end ChannelInvariants

section Claims

/-- C1 counterexample: the claim's sign convention fails on the code.  A
trigger delay of `-500000` fs at a sample interval of `1000` fs with a
memory depth of `1000` samples yields `0` pre-trigger samples and `1000`
post-trigger samples in `StartInternal`, not the claimed `500`/`500`:
the clamp to `[0, memoryDepth]` sends every negative delay to zero. -/
theorem C1_negative_delay_counterexample :
    prePostSplit (-500000) 1000 1000 = (0, 1000) ∧
      prePostSplit (-500000) 1000 1000 ≠ (500, 500) := by
  exact ⟨by decide, by decide⟩

/-- C1 (amended): arming converts the trigger delay to
`delay / interval` samples (truncating division), clamps it to
`[0, memoryDepth]` as the pre-trigger sample count and uses the
remainder as the post-trigger count; a delay that is negative (or zero)
yields zero pre-trigger samples, so it is a POSITIVE delay that shifts
samples before the trigger event: `+500000` fs at `1000` fs and depth
`1000` gives the 500/500 split.  `StartInternal` passes exactly this
split to the device arm call and records the pre-trigger count as the
trigger sample index. -/
theorem C1_pre_post_split (delay interval : ℤ) (m : ℕ) (hpos : 0 < interval) :
    (prePostSplit delay interval m).1 ≤ m ∧
      (prePostSplit delay interval m).2 = m - (prePostSplit delay interval m).1 ∧
      (delay ≤ 0 → (prePostSplit delay interval m).1 = 0) ∧
      (0 ≤ delay → Int.tdiv delay interval ≤ (m : ℤ) →
        ((prePostSplit delay interval m).1 : ℤ) = Int.tdiv delay interval) ∧
      prePostSplit 500000 1000 1000 = (500, 500) ∧
      (∀ s : BridgeState,
        DevEvent.runBlock
            (prePostSplit s.triggerDelay s.sampleInterval s.memDepth).1
            (prePostSplit s.triggerDelay s.sampleInterval s.memDepth).2
          ∈ (StartInternalM s).events ∧
        (StartInternalM s).triggerSampleIndex =
          (prePostSplit s.triggerDelay s.sampleInterval s.memDepth).1) := by
  refine ⟨?_, rfl, ?_, ?_, by decide, ?_⟩
  · exact Int.toNat_le.mpr (min_le_right _ _)
  · intro hd
    have h1 : Int.tdiv delay interval ≤ 0 := by
      have h2 : Int.tdiv (-(-delay)) interval = -(Int.tdiv (-delay) interval) :=
        Int.neg_tdiv (-delay) interval
      rw [neg_neg] at h2
      rw [h2]
      exact neg_nonpos_of_nonneg
        (Int.tdiv_nonneg (neg_nonneg_of_nonpos hd) (le_of_lt hpos))
    show (min (max (Int.tdiv delay interval) 0) (m : ℤ)).toNat = 0
    rw [max_eq_right h1, min_eq_left (Int.natCast_nonneg m)]
    rfl
  · intro h0 hle
    have h2 : 0 ≤ Int.tdiv delay interval :=
      Int.tdiv_nonneg h0 (le_of_lt hpos)
    show ((min (max (Int.tdiv delay interval) 0) (m : ℤ)).toNat : ℤ) = _
    rw [max_eq_left h2, min_eq_left hle, Int.toNat_of_nonneg h2]
  · intro s
    unfold StartInternalM
    split <;> exact ⟨List.mem_cons_self _ _, rfl⟩

/-- C1 witness: the amended theorem applied at delay `+500000` fs,
interval `1000` fs, depth `1000`. -/
theorem C1_pre_post_split_witness :
    (0 : ℤ) < 1000 ∧
      ((prePostSplit 500000 1000 1000).1 ≤ 1000 ∧
        (prePostSplit 500000 1000 1000).2 =
          1000 - (prePostSplit 500000 1000 1000).1 ∧
        ((500000 : ℤ) ≤ 0 → (prePostSplit 500000 1000 1000).1 = 0) ∧
        ((0 : ℤ) ≤ 500000 → Int.tdiv 500000 1000 ≤ (1000 : ℤ) →
          ((prePostSplit 500000 1000 1000).1 : ℤ) = Int.tdiv 500000 1000) ∧
        prePostSplit 500000 1000 1000 = (500, 500) ∧
        (∀ s : BridgeState,
          DevEvent.runBlock
              (prePostSplit s.triggerDelay s.sampleInterval s.memDepth).1
              (prePostSplit s.triggerDelay s.sampleInterval s.memDepth).2
            ∈ (StartInternalM s).events ∧
          (StartInternalM s).triggerSampleIndex =
            (prePostSplit s.triggerDelay s.sampleInterval s.memDepth).1)) :=
  ⟨by decide, C1_pre_post_split 500000 1000 1000 (by decide)⟩

/-- C2 counterexample: the claim's "smallest supported range ≥ r" rule
fails on the code.  A requested range of 10 V on the 6000A series (well
within the 10 mV .. 200 V limits) selects and records the 5 V range,
which is smaller than the request (the request is peak-to-peak while
the ladder values are peak amplitudes); the spec's own rule would give
10 V.  The same happens through the full `SetAnalogRange` handler. -/
theorem C2_smallest_ge_counterexample :
    roundRangeValue PicoType.pico6000a 10 = 5 ∧
      ¬(10 : ℚ) ≤ roundRangeValue PicoType.pico6000a 10 ∧
      specSmallestSupportedGE PicoType.pico6000a 10 = some 10 ∧
      (SetAnalogRange 0 10 (InitState PicoType.pico6000a 6 4 2)).roundedRange 0 =
        5 := by
  refine ⟨by with_unfolding_all rfl, ?_, by with_unfolding_all rfl,
    by with_unfolding_all rfl⟩
  have h1 : roundRangeValue PicoType.pico6000a 10 = 5 := by
    with_unfolding_all rfl
  rw [h1]
  norm_num

/-- C2 (amended): for every series and every requested range `r`,
`SetAnalogRange` selects a supported discrete range, namely the
LARGEST supported range strictly below `r` (every supported range below
`r` is at most the selected one), falling back to the smallest
supported range when no supported range is below `r`; in particular a
request above the maximum gets the maximum.  (The request is
peak-to-peak volts while the ladder holds peak amplitudes, which is why
the code intentionally selects below the request.)  The recorded
rounded range equals the selected range by construction of every
branch. -/
theorem C2_round_range_greatest_below (pt : PicoType) (r : ℚ) :
    roundRangeValue pt r ∈ supportedRanges pt ∧
      (∀ w ∈ supportedRanges pt, w < r → w ≤ roundRangeValue pt r) ∧
      (r ≤ roundRangeValue pt r →
        ∀ w ∈ supportedRanges pt, roundRangeValue pt r ≤ w) := by
  have hs : (supportedRanges pt).Sorted (· > ·) := by
    cases pt <;> simp only [supportedRanges, List.sorted_cons, List.mem_cons,
      List.not_mem_nil, or_false, List.sorted_nil, and_true, forall_eq_or_imp,
      forall_eq, gt_iff_lt] <;> norm_num
  have hne : supportedRanges pt ≠ [] := by cases pt <;> simp [supportedRanges]
  rw [roundRangeValue_eq_ladderPick]
  exact ⟨ladderPick_mem _ hne r, ladderPick_ge_of_lt _ r hs,
    ladderPick_min_of_le _ r hs⟩

/-- C5: `START` (and `SINGLE`) with zero enabled analog channels and
zero enabled pods is a no-op: the state — trigger disarmed-ness, the
one-shot flag, everything — is unchanged and no driver call (in
particular no arm call) is made. -/
theorem C5_start_without_channels_noop (oneShot : Bool) (s : BridgeState)
    (hch : ∀ i, i < s.numChannels → s.channelOn i = false)
    (hpod : ∀ i, i < s.numDigitalPods → s.msoPodEnabled i = false) :
    AcquisitionStart oneShot s = s := by
  unfold AcquisitionStart
  split
  · rfl
  · have h1 : ((List.range s.numChannels).any fun i => s.channelOn i) = false := by
      rw [List.any_eq_false]
      intro i hi
      simp only [List.mem_range] at hi
      simp [hch i hi]
    have h2 : ((List.range s.numDigitalPods).any fun i => s.msoPodEnabled i)
        = false := by
      rw [List.any_eq_false]
      intro i hi
      simp only [List.mem_range] at hi
      simp [hpod i hi]
    dsimp only
    rw [h1, h2]
    simp

/-- C5 witness: a freshly initialised 6000A session has everything off,
and `START` leaves it untouched. -/
theorem C5_start_without_channels_noop_witness :
    (∀ i, i < (InitState PicoType.pico6000a 6 4 2).numChannels →
      (InitState PicoType.pico6000a 6 4 2).channelOn i = false) ∧
      (∀ i, i < (InitState PicoType.pico6000a 6 4 2).numDigitalPods →
        (InitState PicoType.pico6000a 6 4 2).msoPodEnabled i = false) ∧
      AcquisitionStart false (InitState PicoType.pico6000a 6 4 2) =
        InitState PicoType.pico6000a 6 4 2 :=
  ⟨fun _ _ => rfl, fun _ _ => rfl,
    C5_start_without_channels_noop false _ (fun _ _ => rfl) (fun _ _ => rfl)⟩

/-- C6: `STOP` from every state stops the device, forces the one-shot
flag true and the armed flag false, and changes nothing else; with the
one-shot flag forced, a waveform download that completes afterwards
leaves the trigger disarmed instead of re-arming. -/
theorem C6_stop_forces_oneshot (s : BridgeState) :
    AcquisitionStop s =
        { s with
          events := DevEvent.stop :: s.events
          triggerOneShot := true
          triggerArmed := false } ∧
      (AcquisitionStop s).triggerOneShot = true ∧
      (AcquisitionStop s).triggerArmed = false ∧
      (WaveformDownloadComplete (AcquisitionStop s)).triggerArmed = false := by
  refine ⟨rfl, rfl, rfl, ?_⟩
  simp [WaveformDownloadComplete, AcquisitionStop, pushEvent]

/-- C9: on series 2, 3 and 5 the source claims to "set the threshold
value for all 8 lanes at once", but the loop bound `i < 7` writes only
lanes 0..6: setting the pod-0 threshold to 5 V (code 32767) on a
series-5 scope leaves lane 7 at its previous code 0 while lanes 0 and 6
get 32767 (the last-known threshold voltage is recorded as claimed). -/
theorem C9_lane7_left_stale :
    (SetDigitalThreshold 0x800000 5
          (InitState PicoType.pico5000a 5 4 2)).msoPodThreshold 0 0 = 32767 ∧
      (SetDigitalThreshold 0x800000 5
          (InitState PicoType.pico5000a 5 4 2)).msoPodThreshold 0 6 = 32767 ∧
      (SetDigitalThreshold 0x800000 5
          (InitState PicoType.pico5000a 5 4 2)).msoPodThreshold 0 7 = 0 ∧
      (SetDigitalThreshold 0x800000 5
          (InitState PicoType.pico5000a 5 4 2)).msoPodThresholdVoltage 0 = 5 := by
  refine ⟨by with_unfolding_all rfl, by with_unfolding_all rfl,
    by with_unfolding_all rfl, by with_unfolding_all rfl⟩

/-- C10: the zero-interval guard of `UpdateTrigger` ("Bail rather than
dividing by zero") does NOT protect the arm path.  From the freshly
initialised state (`g_sampleInterval = 0`), enabling channel 0 and
issuing `START` reaches `StartInternal`'s division
`g_triggerDelay / g_sampleInterval` with a zero divisor (undefined
behaviour in the C++ source, recorded here in the ghost flag), while
`UpdateTrigger` itself returns before its own division whenever
`g_sampleInterval = 0`. -/
theorem C10_arm_path_division_by_zero :
    ((InitState PicoType.pico6000a 6 4 2).sampleInterval = 0 ∧
      (SetChannelEnabled 0 true
        (InitState PicoType.pico6000a 6 4 2)).sampleInterval = 0 ∧
      (SetChannelEnabled 0 true
        (InitState PicoType.pico6000a 6 4 2)).ubDivByZero = false ∧
      (AcquisitionStart false (SetChannelEnabled 0 true
        (InitState PicoType.pico6000a 6 4 2))).ubDivByZero = true) ∧
    (∀ (n : ℕ) (s : BridgeState), s.sampleInterval = 0 →
      UpdateTriggerM (n + 1) false s = { s with lastTriggerWasForced := false }) := by
  constructor
  · exact ⟨rfl, by with_unfolding_all rfl, by with_unfolding_all rfl,
      by with_unfolding_all rfl⟩
  · intro n s h
    rw [UpdateTriggerM]
    dsimp only
    split_ifs <;> first | rfl | simp_all

end Claims

section ClaimsFrame

/-- C3: mutating a channel's range while a capture is in flight (trigger
armed, and the touched channel is not the trigger source, so the capture
is not re-armed) leaves the frozen during-arm snapshot, the frame
metadata derived from it and the armed state untouched, while the live
rounded range immediately holds the newly selected value; and an arm
event (`StartCapture`) replaces the snapshot with the live configuration
at that moment, so a capture started after the mutation reflects it.
The snapshot fields are written nowhere else in the model. -/
theorem C3_snapshot_frozen_under_range_change (s : BridgeState)
    (chIndex : ℕ) (r : ℚ) (harm : s.triggerArmed = true)
    (hne : chIndex % 256 ≠ s.triggerChannel) :
    snapshotOf (SetAnalogRange chIndex r s) = snapshotOf s ∧
      frameMetadataOf (SetAnalogRange chIndex r s) = frameMetadataOf s ∧
      (SetAnalogRange chIndex r s).triggerArmed = true ∧
      (SetAnalogRange chIndex r s).roundedRange (chIndex % 256) =
        roundRangeValue s.picoType
          (match s.picoType with
           | .pico6000a | .picoPsospa =>
               if s.coupling (chIndex % 256) = Coupling.dc50 then min r 5 else r
           | _ => r) ∧
      (∀ t : BridgeState,
        (StartCaptureM FUEL false false t).channelOnDuringArm = t.channelOn ∧
          (StartCaptureM FUEL false false t).offsetDuringArm = t.offset ∧
          (∀ i, i < t.numDigitalPods →
            (StartCaptureM FUEL false false t).msoPodEnabledDuringArm i =
              t.msoPodEnabled i) ∧
          (StartCaptureM FUEL false false t).sampleIntervalDuringArm =
            t.sampleInterval ∧
          (StartCaptureM FUEL false false t).captureMemDepth = t.memDepth) := by
  unfold SetAnalogRange
  dsimp only
  refine ⟨?_, ?_, ?_, ?_, fun t => snapshot_fields_StartCaptureM 5 false false t⟩
  · exact ((UpdateChannelM_ne_frame FUEL (chIndex % 256) _ (by exact hne)).1).trans
      rfl
  · exact frameMetadataOf_congr
      (((UpdateChannelM_ne_frame FUEL (chIndex % 256) _ (by exact hne)).1).trans rfl)
      (((UpdateChannelM_ne_frame FUEL (chIndex % 256) _ (by exact hne)).2.2).trans
        rfl)
      ((UpdateChannelM_numChannels FUEL (chIndex % 256) _).trans rfl)
      ((UpdateChannelM_numDigitalPods FUEL (chIndex % 256) _).trans rfl)
  · exact ((UpdateChannelM_ne_frame FUEL (chIndex % 256) _ (by exact hne)).2.1).trans
      harm
  · refine (congrFun (UpdateChannelM_roundedRange FUEL (chIndex % 256) _)
      (chIndex % 256)).trans ?_
    dsimp only
    rw [if_pos rfl]

/-- C3 witness: on an armed 6000A session, changing channel 1's range
while channel 0 is the trigger source. -/
theorem C3_snapshot_frozen_under_range_change_witness :
    ({ InitState PicoType.pico6000a 6 4 2 with
        triggerArmed := true } : BridgeState).triggerArmed = true ∧
      (1 : ℕ) % 256 ≠
        ({ InitState PicoType.pico6000a 6 4 2 with
            triggerArmed := true } : BridgeState).triggerChannel ∧
      (snapshotOf (SetAnalogRange 1 10
            { InitState PicoType.pico6000a 6 4 2 with triggerArmed := true }) =
          snapshotOf
            { InitState PicoType.pico6000a 6 4 2 with triggerArmed := true } ∧
        frameMetadataOf (SetAnalogRange 1 10
            { InitState PicoType.pico6000a 6 4 2 with triggerArmed := true }) =
          frameMetadataOf
            { InitState PicoType.pico6000a 6 4 2 with triggerArmed := true } ∧
        (SetAnalogRange 1 10
            { InitState PicoType.pico6000a 6 4 2 with
              triggerArmed := true }).triggerArmed = true ∧
        (SetAnalogRange 1 10
            { InitState PicoType.pico6000a 6 4 2 with
              triggerArmed := true }).roundedRange (1 % 256) =
          roundRangeValue
            ({ InitState PicoType.pico6000a 6 4 2 with
                triggerArmed := true } : BridgeState).picoType
            (match ({ InitState PicoType.pico6000a 6 4 2 with
                triggerArmed := true } : BridgeState).picoType with
             | .pico6000a | .picoPsospa =>
                 if ({ InitState PicoType.pico6000a 6 4 2 with
                      triggerArmed := true } : BridgeState).coupling (1 % 256) =
                     Coupling.dc50 then
                   min 10 5
                 else 10
             | _ => 10) ∧
        (∀ t : BridgeState,
          (StartCaptureM FUEL false false t).channelOnDuringArm = t.channelOn ∧
            (StartCaptureM FUEL false false t).offsetDuringArm = t.offset ∧
            (∀ i, i < t.numDigitalPods →
              (StartCaptureM FUEL false false t).msoPodEnabledDuringArm i =
                t.msoPodEnabled i) ∧
            (StartCaptureM FUEL false false t).sampleIntervalDuringArm =
              t.sampleInterval ∧
            (StartCaptureM FUEL false false t).captureMemDepth = t.memDepth)) :=
  ⟨rfl, by decide,
    C3_snapshot_frozen_under_range_change _ 1 10 rfl (by decide)⟩

/-- C7: selecting a trigger source implicitly enables it when it is not
yet enabled: an analog source gets its channel-on flag set (every other
channel flag and all pod flags unchanged) and becomes the trigger
channel; a digital source gets its pod enabled (other pods and all
channel flags unchanged) and the trigger channel becomes
`numChannels + pod*8 + lane`.  An already-enabled source keeps its
enabled state. -/
theorem C7_trigger_source_auto_enables (chIndex : ℕ) (s : BridgeState) :
    (GetChannelType chIndex = ChannelType.analog →
      (SetTriggerSource chIndex s).channelOn (chIndex % 256) = true ∧
        (∀ d, d ≠ chIndex % 256 →
          (SetTriggerSource chIndex s).channelOn d = s.channelOn d) ∧
        (SetTriggerSource chIndex s).msoPodEnabled = s.msoPodEnabled ∧
        (SetTriggerSource chIndex s).triggerChannel = chIndex % 256) ∧
      (GetChannelType chIndex = ChannelType.digital →
        (SetTriggerSource chIndex s).msoPodEnabled (chIndex % 256) = true ∧
          (∀ q, q ≠ chIndex % 256 →
            (SetTriggerSource chIndex s).msoPodEnabled q = s.msoPodEnabled q) ∧
          (SetTriggerSource chIndex s).channelOn = s.channelOn ∧
          (SetTriggerSource chIndex s).triggerChannel =
            s.numChannels + (chIndex % 256) * 8 + (chIndex / 256) % 256) := by
  constructor
  · intro h
    unfold SetTriggerSource
    rw [h]
    dsimp only
    split_ifs <;>
      refine ⟨?_, fun d hd => ?_, ?_, ?_⟩ <;>
        simp only [StartCaptureM_channelOn, StartCaptureM_msoPodEnabled,
          StartCaptureM_triggerChannel, UpdateTriggerM_channelOn,
          UpdateTriggerM_msoPodEnabled, UpdateTriggerM_triggerChannel,
          UpdateChannelM_channelOn, UpdateChannelM_msoPodEnabled,
          UpdateChannelM_triggerChannel, pushEvent] <;>
        first
          | rfl
          | assumption
          | simp [hd]
  · intro h
    unfold SetTriggerSource
    rw [h]
    dsimp only [EnableMsoPodM]
    split_ifs <;>
      refine ⟨?_, fun q hq => ?_, ?_, ?_⟩ <;>
        simp only [StartCaptureM_channelOn, StartCaptureM_msoPodEnabled,
          StartCaptureM_triggerChannel, UpdateTriggerM_channelOn,
          UpdateTriggerM_msoPodEnabled, UpdateTriggerM_triggerChannel,
          pushEvent] <;>
        first
          | rfl
          | assumption
          | simp [hq]

end ClaimsFrame

section ForceLemmas

theorem PushTriggerDeviceConfig_triggerArmed (u : ℕ) (s : BridgeState) :
    (PushTriggerDeviceConfig u s).triggerArmed = s.triggerArmed := by
  unfold PushTriggerDeviceConfig
  cases TriggerConfigEvent u s <;> rfl

theorem PushTriggerDeviceConfig_triggerOneShot (u : ℕ) (s : BridgeState) :
    (PushTriggerDeviceConfig u s).triggerOneShot = s.triggerOneShot := by
  unfold PushTriggerDeviceConfig
  cases TriggerConfigEvent u s <;> rfl

theorem PushTriggerDeviceConfig_lastForced (u : ℕ) (s : BridgeState) :
    (PushTriggerDeviceConfig u s).lastTriggerWasForced =
      s.lastTriggerWasForced := by
  unfold PushTriggerDeviceConfig
  cases TriggerConfigEvent u s <;> rfl

theorem StartInternalM_triggerOneShot (s : BridgeState) :
    (StartInternalM s).triggerOneShot = s.triggerOneShot := by
  unfold StartInternalM; split <;> rfl

theorem StartInternalM_lastForced (s : BridgeState) :
    (StartInternalM s).lastTriggerWasForced = s.lastTriggerWasForced := by
  unfold StartInternalM; split <;> rfl

/-- An analog (non-auxiliary) trigger source always gets a
`SetSimpleTrigger` call with the per-series converted threshold. -/
theorem TriggerConfigEvent_analog (u : ℕ) (s : BridgeState)
    (hnaux : s.triggerChannel ≠ PICO_TRIGGER_AUX)
    (hana : s.triggerChannel < s.numChannels) :
    TriggerConfigEvent u s =
      some (.simpleTrigger s.triggerChannel (TriggerThresholdArg s)
        (TriggerDelayParam s) u) := by
  unfold TriggerConfigEvent
  rw [if_neg hnaux, if_pos hana]

/-- Forcing the trigger while disarmed: `UpdateTrigger(true)` sets the
forced and one-shot flags, pushes the 1 µs-timeout configuration and —
because the trigger is not armed — does not restart a capture. -/
theorem UpdateTriggerM_force_notArmed (n : ℕ) (s : BridgeState)
    (harm : s.triggerArmed = false) (hint : s.sampleInterval ≠ 0) :
    UpdateTriggerM (n + 1) true s =
      PushTriggerDeviceConfig 1
        { s with lastTriggerWasForced := true, triggerOneShot := true } := by
  rw [UpdateTriggerM]
  dsimp only
  split_ifs <;>
    first
    | rfl
    | simp_all [PushTriggerDeviceConfig_triggerArmed]

theorem force_from_disarmed (s : BridgeState) (harm : s.triggerArmed = false)
    (hint : s.sampleInterval ≠ 0) :
    AcquisitionForceTrigger s =
      StartCaptureM FUEL true true
        (PushTriggerDeviceConfig 1
          { s with lastTriggerWasForced := true, triggerOneShot := true }) := by
  unfold AcquisitionForceTrigger
  rw [if_neg (by simp [harm])]
  exact congrArg (StartCaptureM FUEL true true)
    (UpdateTriggerM_force_notArmed 5 s harm hint)

theorem force_from_armed (s : BridgeState) (harm : s.triggerArmed = true)
    (hint : s.sampleInterval ≠ 0) :
    AcquisitionForceTrigger s =
      StartCaptureM FUEL true true
        (PushTriggerDeviceConfig 1
          { pushEvent DevEvent.stop s with
            triggerArmed := false
            lastTriggerWasForced := true
            triggerOneShot := true }) := by
  unfold AcquisitionForceTrigger
  rw [if_pos harm]
  exact congrArg (StartCaptureM FUEL true true)
    (UpdateTriggerM_force_notArmed 5 _ rfl (by exact hint))

theorem StartCaptureM_armed_true (n : ℕ) (stopFirst force : Bool)
    (s : BridgeState) :
    (StartCaptureM (n + 1) stopFirst force s).triggerArmed = true := by
  rw [StartCaptureM]

/-- `StartCapture` with `force = true` skips the restore-unforced
preamble, so the forced/one-shot flags survive the arm. -/
theorem StartCaptureM_force_flags (n : ℕ) (stopFirst : Bool)
    (s : BridgeState) :
    (StartCaptureM (n + 1) stopFirst true s).triggerOneShot =
        s.triggerOneShot ∧
      (StartCaptureM (n + 1) stopFirst true s).lastTriggerWasForced =
        s.lastTriggerWasForced := by
  rw [StartCaptureM]
  try dsimp only
  simp only [Bool.not_true, Bool.and_false, Bool.false_eq_true, if_false]
  split_ifs <;>
    exact ⟨(StartInternalM_triggerOneShot _).trans rfl,
      (StartInternalM_lastForced _).trans rfl⟩

theorem StartCaptureM_keep_lastForced (fuel : ℕ) (stopFirst force : Bool)
    (s : BridgeState) (h : s.lastTriggerWasForced = false) :
    (StartCaptureM fuel stopFirst force s).lastTriggerWasForced = false := by
  cases fuel with
  | zero => exact h
  | succ n =>
      rw [StartCaptureM]
      try dsimp only
      rw [h]
      simp only [Bool.false_and, Bool.false_eq_true, if_false]
      split_ifs <;> exact (StartInternalM_lastForced _).trans h

/-- `UpdateTrigger(false)` always clears the forced flag, and nothing
downstream sets it again. -/
theorem UpdateTriggerM_false_lastForced (n : ℕ) (s : BridgeState) :
    (UpdateTriggerM (n + 1) false s).lastTriggerWasForced = false := by
  rw [UpdateTriggerM]
  dsimp only
  simp only [Bool.false_eq_true, if_false]
  split_ifs <;>
    first
    | rfl
    | exact StartCaptureM_keep_lastForced _ _ _ _
        ((PushTriggerDeviceConfig_lastForced _ _).trans rfl)
    | exact (PushTriggerDeviceConfig_lastForced _ _).trans rfl

/-- A non-forced `StartCapture` after a forced trigger takes the restore
path, which leaves the forced flag cleared. -/
theorem StartCaptureM_restore_lastForced (n : ℕ) (stopFirst : Bool)
    (s : BridgeState) (h : s.lastTriggerWasForced = true) :
    (StartCaptureM (n + 1 + 1) stopFirst false s).lastTriggerWasForced =
      false := by
  rw [StartCaptureM]
  try dsimp only
  rw [h]
  simp only [Bool.not_false, Bool.and_self, if_true]
  split_ifs <;>
    exact (StartInternalM_lastForced _).trans (UpdateTriggerM_false_lastForced _ _)

/-- The restore path of a non-forced `StartCapture` after a forced
trigger re-pushes the trigger configuration with the normal timeout 0;
that driver call stays in the log of the completed arm. -/
theorem StartCaptureM_restore_event (n : ℕ) (stopFirst : Bool)
    (s : BridgeState) (e : DevEvent) (h : s.lastTriggerWasForced = true)
    (hint : s.sampleInterval ≠ 0) (he : TriggerConfigEvent 0 s = some e) :
    e ∈ (StartCaptureM (n + 1 + 1) stopFirst false s).events := by
  rw [StartCaptureM]
  try dsimp only
  rw [h]
  simp only [Bool.not_false, Bool.and_self, if_true]
  have hmem : e ∈ (UpdateTriggerM (n + 1) false
      (pushEvent DevEvent.stop { s with triggerOneShot := false })).events := by
    rw [UpdateTriggerM]
    dsimp only
    simp only [Bool.false_eq_true, if_false]
    rw [if_neg (by exact hint)]
    unfold PushTriggerDeviceConfig
    rw [show TriggerConfigEvent 0
        { pushEvent DevEvent.stop { s with triggerOneShot := false } with
          lastTriggerWasForced := false } = some e from
      (TriggerConfigEvent_congr 0 rfl).trans he]
    dsimp only
    split_ifs
    · exact (events_mono_mutual n).2 _ _ _ _ (List.mem_cons_self _ _)
    · exact List.mem_cons_self _ _
  split_ifs <;>
    first
    | exact events_mono_StartInternalM _ (List.mem_cons_of_mem _ hmem)
    | exact events_mono_StartInternalM _ hmem

end ForceLemmas

section ForceClaim

theorem AcquisitionForceTrigger_flags (s : BridgeState)
    (hint : s.sampleInterval ≠ 0) :
    (AcquisitionForceTrigger s).triggerArmed = true ∧
      (AcquisitionForceTrigger s).triggerOneShot = true ∧
      (AcquisitionForceTrigger s).lastTriggerWasForced = true ∧
      liveOf (AcquisitionForceTrigger s) = liveOf s := by
  cases harm : s.triggerArmed
  · rw [force_from_disarmed s harm hint]
    exact ⟨StartCaptureM_armed_true 5 _ _ _,
      ((StartCaptureM_force_flags 5 true _).1).trans
        ((PushTriggerDeviceConfig_triggerOneShot 1 _).trans rfl),
      ((StartCaptureM_force_flags 5 true _).2).trans
        ((PushTriggerDeviceConfig_lastForced 1 _).trans rfl),
      ((liveOf_mutual FUEL).2 true true _).trans
        ((liveOf_PushTriggerDeviceConfig 1 _).trans rfl)⟩
  · rw [force_from_armed s harm hint]
    exact ⟨StartCaptureM_armed_true 5 _ _ _,
      ((StartCaptureM_force_flags 5 true _).1).trans
        ((PushTriggerDeviceConfig_triggerOneShot 1 _).trans rfl),
      ((StartCaptureM_force_flags 5 true _).2).trans
        ((PushTriggerDeviceConfig_lastForced 1 _).trans rfl),
      ((liveOf_mutual FUEL).2 true true _).trans
        ((liveOf_PushTriggerDeviceConfig 1 _).trans rfl)⟩

theorem AcquisitionForceTrigger_event (s : BridgeState) (e : DevEvent)
    (hint : s.sampleInterval ≠ 0) (he : TriggerConfigEvent 1 s = some e) :
    e ∈ (AcquisitionForceTrigger s).events := by
  cases harm : s.triggerArmed
  · rw [force_from_disarmed s harm hint]
    refine (events_mono_mutual FUEL).2 _ _ _ _ ?_
    unfold PushTriggerDeviceConfig
    rw [show TriggerConfigEvent 1
        { s with lastTriggerWasForced := true, triggerOneShot := true } =
          some e from (TriggerConfigEvent_congr 1 rfl).trans he]
    exact List.mem_cons_self _ _
  · rw [force_from_armed s harm hint]
    refine (events_mono_mutual FUEL).2 _ _ _ _ ?_
    unfold PushTriggerDeviceConfig
    rw [show TriggerConfigEvent 1
        { pushEvent DevEvent.stop s with
          triggerArmed := false
          lastTriggerWasForced := true
          triggerOneShot := true } = some e from
      (TriggerConfigEvent_congr 1 rfl).trans he]
    exact List.mem_cons_self _ _

theorem AcquisitionStart_go (oneShot : Bool) (s : BridgeState)
    (harm : s.triggerArmed = false)
    (hch : ((List.range s.numChannels).any fun i => s.channelOn i) = true) :
    AcquisitionStart oneShot s =
      { StartCaptureM FUEL false false s with triggerOneShot := oneShot } := by
  unfold AcquisitionStart
  rw [if_neg (by simp [harm])]
  dsimp only
  rw [hch]
  simp

/-- C4: a `FORCE` works from any state, armed or not: it disarms if
needed, reconfigures the trigger with the minimal 1 µs auto-trigger
timeout, arms, and marks the session forced with one-shot semantics, so
the download that completes the forced capture leaves the trigger
disarmed; a subsequent normal `START` then takes the restore path:
it re-pushes the previously configured trigger with the normal timeout
0, clears the forced flag and arms with one-shot false.  (Stated for an
analog trigger source; the sample interval must be nonzero for the
trigger configuration to reach the device at all.) -/
theorem C4_force_one_shot_then_restore (s : BridgeState)
    (hint : s.sampleInterval ≠ 0)
    (hnaux : s.triggerChannel ≠ PICO_TRIGGER_AUX)
    (hana : s.triggerChannel < s.numChannels)
    (hch : ((List.range s.numChannels).any fun i => s.channelOn i) = true) :
    (AcquisitionForceTrigger s).triggerArmed = true ∧
      (AcquisitionForceTrigger s).triggerOneShot = true ∧
      (AcquisitionForceTrigger s).lastTriggerWasForced = true ∧
      DevEvent.simpleTrigger s.triggerChannel (TriggerThresholdArg s)
          (TriggerDelayParam s) 1 ∈ (AcquisitionForceTrigger s).events ∧
      (WaveformDownloadComplete (AcquisitionForceTrigger s)).triggerArmed =
        false ∧
      (AcquisitionStart false
          (WaveformDownloadComplete
            (AcquisitionForceTrigger s))).triggerArmed = true ∧
      (AcquisitionStart false
          (WaveformDownloadComplete
            (AcquisitionForceTrigger s))).lastTriggerWasForced = false ∧
      (AcquisitionStart false
          (WaveformDownloadComplete
            (AcquisitionForceTrigger s))).triggerOneShot = false ∧
      DevEvent.simpleTrigger s.triggerChannel (TriggerThresholdArg s)
          (TriggerDelayParam s) 0 ∈
        (AcquisitionStart false
          (WaveformDownloadComplete (AcquisitionForceTrigger s))).events := by
  obtain ⟨hfA, hfO, hfL, hfLive⟩ := AcquisitionForceTrigger_flags s hint
  have hw : WaveformDownloadComplete (AcquisitionForceTrigger s) =
      { AcquisitionForceTrigger s with triggerArmed := false } := by
    unfold WaveformDownloadComplete
    rw [if_pos hfO]
  have hwLive : liveOf ({ AcquisitionForceTrigger s with
      triggerArmed := false } : BridgeState) = liveOf s := hfLive
  have hch2 : ((List.range ({ AcquisitionForceTrigger s with
        triggerArmed := false } : BridgeState).numChannels).any fun i =>
      ({ AcquisitionForceTrigger s with
        triggerArmed := false } : BridgeState).channelOn i) = true := by
    dsimp only
    rw [show (AcquisitionForceTrigger s).numChannels = s.numChannels from
      congrArg LiveConfig.numChannels hfLive]
    simp only [show (AcquisitionForceTrigger s).channelOn = s.channelOn from
      congrArg LiveConfig.channelOn hfLive]
    exact hch
  have hg : AcquisitionStart false
      ({ AcquisitionForceTrigger s with triggerArmed := false } : BridgeState) =
      { StartCaptureM FUEL false false
          { AcquisitionForceTrigger s with triggerArmed := false } with
        triggerOneShot := false } :=
    AcquisitionStart_go false
      { AcquisitionForceTrigger s with triggerArmed := false }
      (by rfl) (by exact hch2)
  refine ⟨hfA, hfO, hfL,
    AcquisitionForceTrigger_event s _ hint
      (TriggerConfigEvent_analog 1 s hnaux hana), ?_, ?_, ?_, ?_, ?_⟩
  · rw [hw]
  · rw [hw, hg]
    exact StartCaptureM_armed_true 5 false false
      { AcquisitionForceTrigger s with triggerArmed := false }
  · rw [hw, hg]
    exact StartCaptureM_restore_lastForced 4 false
      { AcquisitionForceTrigger s with triggerArmed := false } hfL
  · rw [hw, hg]
  · rw [hw, hg]
    refine StartCaptureM_restore_event 4 false
      { AcquisitionForceTrigger s with triggerArmed := false } _ hfL
      (by rw [show ({ AcquisitionForceTrigger s with
          triggerArmed := false } : BridgeState).sampleInterval =
            s.sampleInterval from congrArg LiveConfig.sampleInterval hwLive]
          exact hint) ?_
    exact (TriggerConfigEvent_congr 0 hwLive).trans
      (TriggerConfigEvent_analog 0 s hnaux hana)

end ForceClaim

section ThresholdClaim

/-- A 6000A-series demo session: channel 0 enabled and selected as the
trigger source, 1 V rounded range, 1000 fs sample interval, 0.7 V
trigger level. -/
def forceDemoState : BridgeState :=
  { InitState PicoType.pico6000a 6 4 2 with
    sampleInterval := 1000
    channelOn := fun i => i == 0
    roundedRange := fun i => if i = PICO_TRIGGER_AUX then 2 else 1
    triggerVoltage := 7/10 }

/-- A 5000A-series demo session with the same front-end settings. -/
def truncDemoState : BridgeState :=
  { InitState PicoType.pico5000a 5 4 2 with
    sampleInterval := 1000
    channelOn := fun i => i == 0
    roundedRange := fun i => if i = PICO_TRIGGER_AUX then 2 else 1
    triggerVoltage := 7/10 }

/-- C4 witness: the force/one-shot/restore chain on a 6000A session with
channel 0 enabled and selected as trigger source. -/
theorem C4_force_one_shot_then_restore_witness :
    forceDemoState.sampleInterval ≠ 0 ∧
      forceDemoState.triggerChannel ≠ PICO_TRIGGER_AUX ∧
      forceDemoState.triggerChannel < forceDemoState.numChannels ∧
      ((List.range forceDemoState.numChannels).any fun i =>
        forceDemoState.channelOn i) = true ∧
      ((AcquisitionForceTrigger forceDemoState).triggerArmed = true ∧
        (AcquisitionForceTrigger forceDemoState).triggerOneShot = true ∧
        (AcquisitionForceTrigger forceDemoState).lastTriggerWasForced = true ∧
        DevEvent.simpleTrigger forceDemoState.triggerChannel
            (TriggerThresholdArg forceDemoState)
            (TriggerDelayParam forceDemoState) 1 ∈
          (AcquisitionForceTrigger forceDemoState).events ∧
        (WaveformDownloadComplete
            (AcquisitionForceTrigger forceDemoState)).triggerArmed = false ∧
        (AcquisitionStart false
            (WaveformDownloadComplete
              (AcquisitionForceTrigger forceDemoState))).triggerArmed = true ∧
        (AcquisitionStart false
            (WaveformDownloadComplete
              (AcquisitionForceTrigger
                forceDemoState))).lastTriggerWasForced = false ∧
        (AcquisitionStart false
            (WaveformDownloadComplete
              (AcquisitionForceTrigger
                forceDemoState))).triggerOneShot = false ∧
        DevEvent.simpleTrigger forceDemoState.triggerChannel
            (TriggerThresholdArg forceDemoState)
            (TriggerDelayParam forceDemoState) 0 ∈
          (AcquisitionStart false
            (WaveformDownloadComplete
              (AcquisitionForceTrigger forceDemoState))).events) :=
  ⟨by decide, by decide, by decide, by decide,
    C4_force_one_shot_then_restore forceDemoState (by decide) (by decide)
      (by decide) (by decide)⟩

/-- C8 counterexample: the claim's "rounded toward the nearest integer"
fails on the 5000A series, whose `UpdateTrigger` branch truncates the
trigger code toward zero (`trunc(trig_code)`, line 3135).  With a 1 V
rounded range, zero offset and a 0.7 V trigger level the exact code is
`0.7 * 32767 = 22936.9`: the device is given 22936 where
round-to-nearest gives 22937. -/
theorem C8_series5000_truncates_counterexample :
    TriggerThresholdArg truncDemoState = 22936 ∧
      croundQ (TrigCodeQ truncDemoState) = 22937 ∧
      (22936 : ℤ) ≠ 22937 := by
  refine ⟨by with_unfolding_all rfl, by with_unfolding_all rfl, by decide⟩

/-- C8 (amended): for an analog (non-auxiliary) trigger source with a
nonzero rounded range, the trigger level is converted exactly as
`(volts - offset) / (roundedRange / 32767)`; the 3000A, 4000A, 6000A
and PSOSPA branches round the code to the nearest integer (half away
from zero), while the 2000A and 5000A branches truncate it toward
zero; and that converted threshold is exactly what the trigger
reconfiguration passes to the device's `SetSimpleTrigger` call. -/
theorem C8_trigger_level_conversion (s : BridgeState) (n : ℕ)
    (hnaux : s.triggerChannel ≠ PICO_TRIGGER_AUX)
    (hana : s.triggerChannel < s.numChannels)
    (hrr : s.roundedRange s.triggerChannel ≠ 0)
    (hint : s.sampleInterval ≠ 0) :
    TrigCodeQ s = (s.triggerVoltage - s.offset s.triggerChannel) /
        (s.roundedRange s.triggerChannel / 32767) ∧
      ((s.picoType = .pico2000a ∨ s.picoType = .pico5000a) →
        TriggerThresholdArg s = ctruncQ (TrigCodeQ s)) ∧
      ((s.picoType = .pico3000a ∨ s.picoType = .pico4000a ∨
          s.picoType = .pico6000a ∨ s.picoType = .picoPsospa) →
        TriggerThresholdArg s = croundQ (TrigCodeQ s)) ∧
      DevEvent.simpleTrigger s.triggerChannel (TriggerThresholdArg s)
          (TriggerDelayParam s) 0 ∈
        (UpdateTriggerM (n + 1) false s).events := by
  have hA : triggerIsAnalog s = true := by
    unfold triggerIsAnalog
    simp [hana]
  refine ⟨?_, ?_, ?_, ?_⟩
  · unfold TrigCodeQ
    dsimp only
    rw [if_pos hA, if_pos hA,
      if_neg (by simp [div_eq_zero_iff, hrr] : ¬ s.roundedRange s.triggerChannel / 32767 = 0)]
  · intro h
    rcases h with h | h <;> (unfold TriggerThresholdArg; rw [h])
  · intro h
    rcases h with h | h | h | h <;> (unfold TriggerThresholdArg; rw [h])
  · rw [UpdateTriggerM]
    dsimp only
    simp only [Bool.false_eq_true, if_false]
    rw [if_neg (by exact hint)]
    unfold PushTriggerDeviceConfig
    rw [show TriggerConfigEvent 0 { s with lastTriggerWasForced := false } =
        some (.simpleTrigger s.triggerChannel (TriggerThresholdArg s)
          (TriggerDelayParam s) 0) from
      (TriggerConfigEvent_congr 0 rfl).trans
        (TriggerConfigEvent_analog 0 s hnaux hana)]
    dsimp only
    split_ifs
    · exact (events_mono_mutual n).2 _ _ _ _ (List.mem_cons_self _ _)
    · exact List.mem_cons_self _ _

/-- C8 witness: the conversion law applied to the 6000A demo session
(0.7 V level, 1 V range): round-to-nearest on this series. -/
theorem C8_trigger_level_conversion_witness :
    forceDemoState.triggerChannel ≠ PICO_TRIGGER_AUX ∧
      forceDemoState.triggerChannel < forceDemoState.numChannels ∧
      forceDemoState.roundedRange forceDemoState.triggerChannel ≠ 0 ∧
      forceDemoState.sampleInterval ≠ 0 ∧
      (TrigCodeQ forceDemoState =
          (forceDemoState.triggerVoltage -
            forceDemoState.offset forceDemoState.triggerChannel) /
            (forceDemoState.roundedRange forceDemoState.triggerChannel /
              32767) ∧
        ((forceDemoState.picoType = .pico2000a ∨
            forceDemoState.picoType = .pico5000a) →
          TriggerThresholdArg forceDemoState =
            ctruncQ (TrigCodeQ forceDemoState)) ∧
        ((forceDemoState.picoType = .pico3000a ∨
            forceDemoState.picoType = .pico4000a ∨
            forceDemoState.picoType = .pico6000a ∨
            forceDemoState.picoType = .picoPsospa) →
          TriggerThresholdArg forceDemoState =
            croundQ (TrigCodeQ forceDemoState)) ∧
        DevEvent.simpleTrigger forceDemoState.triggerChannel
            (TriggerThresholdArg forceDemoState)
            (TriggerDelayParam forceDemoState) 0 ∈
          (UpdateTriggerM (5 + 1) false forceDemoState).events) :=
  ⟨by decide, by decide,
    by
      have h1 : forceDemoState.roundedRange forceDemoState.triggerChannel = 1 := by
        with_unfolding_all rfl
      rw [h1]
      exact one_ne_zero,
    by decide,
    C8_trigger_level_conversion forceDemoState 5 (by decide) (by decide)
      (by
        have h1 : forceDemoState.roundedRange forceDemoState.triggerChannel = 1 := by
          with_unfolding_all rfl
        rw [h1]
        exact one_ne_zero)
      (by decide)⟩

end ThresholdClaim
